import Mathlib

/-!
Verification of the rubric evaluator of `run.py` (Kubernetes Basics Challenge).

The script parses YAML manifests into dynamically typed Python values and
grades them with four evaluator functions (`check_deployment`,
`check_service`, `check_configmap`, `check_secret`) plus an aggregator
(`check_all_manifests`).  We embed the Python value universe as the
inductive type `Py`, and every dynamically typed operation the evaluators
perform (`dict.get`, `in`, subscription, `>=`, truthiness, iteration,
`str()`) as a function into `Except PyErr`, so that the embedding raises
exactly where CPython raises (`TypeError`/`AttributeError`/...).
-/

/-- A parsed YAML / Python value: `None`, `bool`, `int`, `str`, `list`
or `dict` with string keys (the only key type produced by the manifests). -/
inductive Py where
  | none
  | bool (b : Bool)
  | int (n : Int)
  | str (s : String)
  | list (xs : List Py)
  | dict (kvs : List (String × Py))

/-- The Python exception kinds the evaluators can raise. -/
inductive PyErr where
  | typeError
  | attrError
  | keyError
  | indexError
deriving DecidableEq

/-- `manifest is None`. -/
def Py.isNone : Py → Bool
  | .none => true
  | _ => false

/-- Python truthiness (`if x:`). -/
def Py.truthy : Py → Bool
  | .none => false
  | .bool b => b
  | .int n => n != 0
  | .str s => !s.isEmpty
  | .list xs => !xs.isEmpty
  | .dict kvs => !kvs.isEmpty

def Py.isDict : Py → Bool
  | .dict _ => true
  | _ => false

/-- ints and bools support numeric comparison in Python. -/
def Py.isNum : Py → Bool
  | .int _ => true
  | .bool _ => true
  | _ => false

def Py.isStr : Py → Bool
  | .str _ => true
  | _ => false

def Py.isList : Py → Bool
  | .list _ => true
  | _ => false

/-- Python `v == s` for a string literal `s`: only equal strings compare
equal (no Python value of another type equals a `str`). -/
def pyIsStr (v : Py) (s : String) : Bool :=
  match v with
  | .str t => t == s
  | _ => false

/-- Python `v == n` for an int literal `n`: ints compare numerically and
`bool` is a numeric subtype (`True == 1`). -/
def pyIsInt (v : Py) (n : Int) : Bool :=
  match v with
  | .int m => m == n
  | .bool b => (if b then (1 : Int) else 0) == n
  | _ => false

/-- Python `repr`, depth-limited like the CPython recursion limit (the
manifests in the claims are shallow; str/int/bool/None cases are exact,
strings are rendered with the common single-quote form). -/
def pyReprF : Nat → Py → String
  | _, .none => "None"
  | _, .bool b => if b then "True" else "False"
  | _, .int n => toString n
  | _, .str s => "\x27" ++ s ++ "\x27"
  | 0, .list _ => ""
  | 0, .dict _ => ""
  | fuel + 1, .list xs =>
      "[" ++ String.intercalate ", " (xs.map (fun x => pyReprF fuel x)) ++ "]"
  | fuel + 1, .dict kvs =>
      "\x7b" ++
        String.intercalate ", "
          (kvs.map (fun kv => "\x27" ++ kv.1 ++ "\x27: " ++ pyReprF fuel kv.2)) ++
      "\x7d"

/-- Python `str(v)` (as used by the f-strings of `run.py`). -/
def pyStr : Py → String
  | .str s => s
  | v => pyReprF 1000 v

/-- `v.get(k, d)`: only dicts have `.get`; any other receiver raises
`AttributeError`. -/
def pyGet (v : Py) (k : String) (d : Py) : Except PyErr Py :=
  match v with
  | .dict kvs => .ok ((kvs.lookup k).getD d)
  | _ => .error .attrError

/-- Total variant of `pyGet` (the value `pyGet` returns when it succeeds);
used to state well-formedness conditions and claim formulas. -/
def pyGetD (v : Py) (k : String) (d : Py) : Py :=
  match v with
  | .dict kvs => (kvs.lookup k).getD d
  | _ => d

/-- `v[k]` for a string key `k`: dict lookup (`KeyError` if missing);
subscripting a str/list with a str raises `TypeError`. -/
def pySub (v : Py) (k : String) : Except PyErr Py :=
  match v with
  | .dict kvs =>
      match kvs.lookup k with
      | some x => .ok x
      | Option.none => .error .keyError
  | _ => .error .typeError

/-- `v[0]`: list indexing; `str[0]` yields the first character; a dict
has no key `0` (manifest dicts have string keys) so it raises `KeyError`;
other receivers raise `TypeError`. -/
def pyIndex0 : Py → Except PyErr Py
  | .list (x :: _) => .ok x
  | .list [] => .error .indexError
  | .str s =>
      match s.toList with
      | c :: _ => .ok (.str (String.singleton c))
      | [] => .error .indexError
  | .dict _ => .error .keyError
  | _ => .error .typeError

def charsPref : List Char → List Char → Bool
  | [], _ => true
  | _ :: _, [] => false
  | a :: as, b :: bs => a == b && charsPref as bs

def charsSub (p : List Char) : List Char → Bool
  | [] => p.isEmpty
  | b :: bs => charsPref p (b :: bs) || charsSub p bs

/-- Python substring test `pat in s`. -/
def strHasSub (s pat : String) : Bool :=
  charsSub pat.toList s.toList

/-- Python `needle in v` for a string needle: key test on dicts,
substring test on strings, membership on lists; `TypeError` otherwise. -/
def pyContains (v : Py) (needle : String) : Except PyErr Bool :=
  match v with
  | .dict kvs => .ok (kvs.lookup needle).isSome
  | .str s => .ok (strHasSub s needle)
  | .list xs => .ok (xs.any (fun x => pyIsStr x needle))
  | _ => .error .typeError

/-- Python `v >= n` for an int literal `n`: numeric for int/bool,
`TypeError` for every other type. -/
def pyGe (v : Py) (n : Int) : Except PyErr Bool :=
  match v with
  | .int m => .ok (decide (n ≤ m))
  | .bool b => .ok (decide (n ≤ if b then (1 : Int) else 0))
  | _ => .error .typeError

/-- The `for env in xs: if <f env>: flag = True` loop: iterates the whole
sequence (no break), or-ing the results; an element error propagates. -/
def pyAnyLoop (f : Py → Except PyErr Bool) : List Py → Bool → Except PyErr Bool
  | [], acc => .ok acc
  | x :: xs, acc => do
      let b ← f x
      pyAnyLoop f xs (acc || b)

/-- Python `for env in v` with a truthiness flag body: lists iterate their
elements, strings their characters, dicts their keys; other values are not
iterable (`TypeError`). -/
def pyForAny (v : Py) (f : Py → Except PyErr Bool) : Except PyErr Bool :=
  match v with
  | .list xs => pyAnyLoop f xs false
  | .str s => pyAnyLoop f (s.toList.map (fun c => Py.str (String.singleton c))) false
  | .dict kvs => pyAnyLoop f (kvs.map (fun kv => Py.str kv.1)) false
  | _ => .error .typeError

/-- `for key in keys: if key in data: found.append(key)` — keeps the keys
(in order) contained in `data`, propagating a `TypeError` from `in`. -/
def pyFilterKeys (data : Py) : List String → Except PyErr (List String)
  | [] => .ok []
  | k :: ks => do
      let b ← pyContains data k
      let rest ← pyFilterKeys data ks
      pure (if b then k :: rest else rest)

/-! ### base64 / utf-8 model (for `check_secret`) -/

/-- Value of a standard base64 alphabet character. -/
def b64val (c : Char) : Option Nat :=
  if 'A' ≤ c && c ≤ 'Z' then some (c.toNat - 65)
  else if 'a' ≤ c && c ≤ 'z' then some (c.toNat - 97 + 26)
  else if '0' ≤ c && c ≤ '9' then some (c.toNat - 48 + 52)
  else if c == '+' then some 62
  else if c == '/' then some 63
  else Option.none

/-- Decode a list of 6-bit values into bytes; a final group of 2 or 3
data characters yields 1 or 2 bytes, a leftover single character is a
padding error. -/
def b64chunk : List Nat → Option (List Nat)
  | [] => some []
  | a :: b :: c :: d :: rest =>
      (b64chunk rest).map
        (fun t => (a * 4 + b / 16) :: ((b % 16) * 16 + c / 4) :: ((c % 4) * 64 + d) :: t)
  | [a, b] => some [a * 4 + b / 16]
  | [a, b, c] => some [a * 4 + b / 16, (b % 16) * 16 + c / 4]
  | [_] => Option.none

/-- `base64.b64decode(s)` with the default `validate=False`: non-ascii
input fails the ascii encode; characters outside the alphabet are
discarded; a non-multiple-of-4 count of data characters without padding is
an `Incorrect padding` error. -/
def b64decodeBytes (s : String) : Option (List Nat) :=
  if s.toList.any (fun c => 128 ≤ c.toNat) then Option.none
  else
    let ds := s.toList.filterMap b64val
    let pads := (s.toList.filter (fun c => c == '=')).length
    if ds.length % 4 == 0 || 1 ≤ pads then b64chunk ds else Option.none

/-- Strict utf-8 decoding (as `bytes.decode("utf-8")`): rejects
continuation-byte leads, overlong forms, surrogates and values above
`0x10FFFF`.  Structured on fuel (one byte is consumed per step, so fuel
`bs.length` suffices). -/
def utf8DecodeF : Nat → List Nat → Option (List Char)
  | _, [] => some []
  | 0, _ :: _ => Option.none
  | fuel + 1, b :: rest =>
    if b < 128 then (utf8DecodeF fuel rest).map (fun cs => Char.ofNat b :: cs)
    else if b < 194 then Option.none
    else if b < 224 then
      match rest with
      | b2 :: rest2 =>
          if 128 ≤ b2 && b2 < 192 then
            (utf8DecodeF fuel rest2).map
              (fun cs => Char.ofNat ((b - 192) * 64 + (b2 - 128)) :: cs)
          else Option.none
      | [] => Option.none
    else if b < 240 then
      match rest with
      | b2 :: b3 :: rest3 =>
          if 128 ≤ b2 && b2 < 192 && 128 ≤ b3 && b3 < 192 then
            let cp := (b - 224) * 4096 + (b2 - 128) * 64 + (b3 - 128)
            if cp < 2048 || (55296 ≤ cp && cp < 57344) then Option.none
            else (utf8DecodeF fuel rest3).map (fun cs => Char.ofNat cp :: cs)
          else Option.none
      | _ => Option.none
    else if b < 245 then
      match rest with
      | b2 :: b3 :: b4 :: rest4 =>
          if 128 ≤ b2 && b2 < 192 && 128 ≤ b3 && b3 < 192 && 128 ≤ b4 && b4 < 192 then
            let cp := (b - 240) * 262144 + (b2 - 128) * 4096 + (b3 - 128) * 64 + (b4 - 128)
            if cp < 65536 || 1114111 < cp then Option.none
            else (utf8DecodeF fuel rest4).map (fun cs => Char.ofNat cp :: cs)
          else Option.none
      | _ => Option.none
    else Option.none

def utf8Decode (bs : List Nat) : Option (List Char) :=
  utf8DecodeF bs.length bs

/-- `base64.b64decode(api_key).decode("utf-8")` inside the bare
`try/except` of `check_secret`: any exception — including the `TypeError`
raised when `api_key` is not a str — maps to `Option.none` (the except
branch). -/
def b64DecodedChars : Py → Option (List Char)
  | .str s => (b64decodeBytes s).bind utf8Decode
  | _ => Option.none

example : b64DecodedChars (.str "aGVsbG8=") = some ['h', 'e', 'l', 'l', 'o'] := by decide
example : b64DecodedChars (.str "not-valid-base64!!!") = Option.none := by decide
example : b64DecodedChars (.str "====") = some [] := by decide

/-! ### The evaluators -/

/-- One `(check name, passed, detail)` triple.  The detail is a `Py`
value: `run.py` usually stores a formatted string but in two places stores
a raw manifest value (the image on a passing image check, the name on a
passing name check, and the value under `"error"` on the malformed-YAML
check). -/
structure CheckResult where
  name : String
  passed : Bool
  detail : Py

/-- The `(checks, points, max_points)` triple each evaluator returns. -/
abbrev EvalOut := List CheckResult × Int × Int

/-- The three required ConfigMap data keys, in rubric order. -/
def requiredKeys : List String := ["FLASK_ENV", "LOG_LEVEL", "APP_NAME"]

/-- Lines 67-71 of `run.py`: the replicas check and its points. -/
def replicasPair (replicas : Py) (ok : Bool) : CheckResult × Int :=
  if ok then (⟨"Replicas >= 2", true, .str ("Found " ++ pyStr replicas ++ " replicas")⟩, 5)
  else (⟨"Replicas >= 2", false, .str ("Found " ++ pyStr replicas ++ ", need at least 2")⟩, 0)

/-- Lines 80-84 of `run.py`: the image check and its points. -/
def imagePair (image : Py) (ok : Bool) : CheckResult × Int :=
  if ok then (⟨"Correct image", true, image⟩, 3)
  else (⟨"Correct image", false, .str ("Expected k8s-challenge-app, got " ++ pyStr image)⟩, 0)

/-- Lines 88-92 of `run.py`: the resources check and its points. -/
def resourcesPair (ok : Bool) : CheckResult × Int :=
  if ok then (⟨"Resource limits", true, .str "Requests and limits defined"⟩, 5)
  else (⟨"Resource limits", false, .str "Missing requests or limits"⟩, 0)

/-- Lines 130-134 of `run.py`: the configMapRef check and its points. -/
def cmRefPair (ok : Bool) : CheckResult × Int :=
  if ok then (⟨"ConfigMap reference", true, .str "envFrom configured"⟩, 2)
  else (⟨"ConfigMap reference", false, .str "Missing envFrom configMapRef"⟩, 0)

/-- Lines 136-140 of `run.py`: the secretKeyRef check and its points. -/
def secretRefPair (ok : Bool) : CheckResult × Int :=
  if ok then (⟨"Secret reference", true, .str "secretKeyRef configured"⟩, 2)
  else (⟨"Secret reference", false, .str "Missing secretKeyRef"⟩, 0)

/-- Lines 162-166 of `run.py`: the service type check and its points. -/
def svcTypePair (svcType : Py) (ok : Bool) : CheckResult × Int :=
  if ok then (⟨"Service type", true, .str "NodePort"⟩, 5)
  else (⟨"Service type", false, .str ("Expected NodePort, got " ++ pyStr svcType)⟩, 0)

/-- Lines 170-174 of `run.py`: the selector check and its points. -/
def selectorPair (selector : Py) (ok : Bool) : CheckResult × Int :=
  if ok then (⟨"Selector matches", true, .str "app: k8s-challenge"⟩, 5)
  else (⟨"Selector matches", false,
         .str ("Expected app: k8s-challenge, got " ++ pyStr selector)⟩, 0)

/-- Lines 180-184 of `run.py`: the port-mapping check and its points. -/
def portMappingPair (p tp : Py) (ok : Bool) : CheckResult × Int :=
  if ok then (⟨"Port mapping", true, .str "80 → 5000"⟩, 5)
  else (⟨"Port mapping", false,
        .str ("Expected 80→5000, got " ++ pyStr p ++ "→" ++ pyStr tp)⟩, 0)

/-- Lines 210-215 of `run.py`: the ConfigMap name check and its points. -/
def cmNamePair (name : Py) (ok : Bool) : CheckResult × Int :=
  if ok then (⟨"Correct name", true, name⟩, 3)
  else (⟨"Correct name", false, .str ("Expected k8s-challenge-config, got " ++ pyStr name)⟩, 0)

/-- Lines 232-238 of `run.py`: the required-keys check with partial
credit, as a function of the found keys. -/
def keysPair (found : List String) : CheckResult × Int :=
  if found.length == requiredKeys.length then
    (⟨"All config keys", true, .str (String.intercalate ", " found)⟩, 10)
  else
    (⟨"All config keys", false,
      .str ("Missing: " ++
        String.intercalate ", " (requiredKeys.filter (fun k => !found.contains k)))⟩,
     3 * (found.length : Int))

/-- Lines 256-261 of `run.py`: the Secret name check and its points. -/
def secNamePair (name : Py) (ok : Bool) : CheckResult × Int :=
  if ok then (⟨"Correct name", true, name⟩, 3)
  else (⟨"Correct name", false, .str ("Expected k8s-challenge-secrets, got " ++ pyStr name)⟩, 0)

/-- Lines 264-269 of `run.py`: the Secret type check and its points. -/
def secTypePair (st : Py) (ok : Bool) : CheckResult × Int :=
  if ok then (⟨"Type Opaque", true, .str ""⟩, 2)
  else (⟨"Type Opaque", false, .str ("Got " ++ pyStr st)⟩, 0)

/-- Lines 275-288 of `run.py`: the api-key check — truthiness/placeholder
guard, then base64+utf-8 decoding inside the bare `try/except`. -/
def apiKeyPair (apiKey : Py) : CheckResult × Int :=
  if apiKey.truthy && !pyIsStr apiKey "REPLACE-WITH-BASE64-ENCODED-VALUE" then
    match b64DecodedChars apiKey with
    | some cs =>
        if 0 < cs.length then
          (⟨"api-key (base64)", true,
            .str ("Valid (" ++ toString cs.length ++ " chars decoded)")⟩, 10)
        else (⟨"api-key (base64)", false, .str "Empty value"⟩, 0)
    | Option.none => (⟨"api-key (base64)", false, .str "Invalid base64 encoding"⟩, 0)
  else (⟨"api-key (base64)", false, .str "Not set or still placeholder"⟩, 0)

/-- Lines 95-114 of `run.py` (the liveness/readiness probe check,
identical for both probes up to the key and check name):
`if container.get(key): probe = container[key];
if probe.get("httpGet", {}).get("path") == "/health": ...`. -/
def probeCheck (container : Py) (key label : String) : Except PyErr (CheckResult × Int) := do
  let p ← pyGet container key .none
  if p.truthy then do
    let probe ← pySub container key
    let hg ← pyGet probe "httpGet" (.dict [])
    let path ← pyGet hg "path" .none
    if pyIsStr path "/health" then
      pure (⟨label, true, .str "HTTP GET /health"⟩, 4)
    else
      pure (⟨label, false, .str "Wrong path or type"⟩, 0)
  else
    pure (⟨label, false, .str "Not configured"⟩, 0)

/-- Lines 117-123 of `run.py`: `has_configmap` — iterate `envFrom` (when
truthy) looking for a truthy `configMapRef`. -/
def envFromFlag (container ef : Py) : Except PyErr Bool :=
  if ef.truthy then do
    let efv ← pySub container "envFrom"
    pyForAny efv (fun env => do
      let r ← pyGet env "configMapRef" .none
      pure r.truthy)
  else pure false

/-- Lines 117-128 of `run.py`: `has_secret` — iterate `env` (when truthy)
looking for a truthy `valueFrom.secretKeyRef`. -/
def envFlag (container ev : Py) : Except PyErr Bool :=
  if ev.truthy then do
    let evv ← pySub container "env"
    pyForAny evv (fun env => do
      let vf ← pyGet env "valueFrom" (.dict [])
      let sk ← pyGet vf "secretKeyRef" .none
      pure sk.truthy)
  else pure false

/-- Lines 76-140 of `run.py`: the checks run on `containers[0]` when the
containers sequence is truthy (image, resources, probes, env references). -/
def deploymentContainerChecks (container : Py) : Except PyErr (List CheckResult × Int) := do
  let image ← pyGet container "image" (.str "")
  let imgOk ← pyContains image "k8s-challenge-app"
  let imgPair := imagePair image imgOk
  let resources ← pyGet container "resources" (.dict [])
  let limits ← pyGet resources "limits" .none
  let requests ← pyGet resources "requests" .none
  let resPair := resourcesPair (limits.truthy && requests.truthy)
  let lpPair ← probeCheck container "livenessProbe" "Liveness probe"
  let rpPair ← probeCheck container "readinessProbe" "Readiness probe"
  let ef ← pyGet container "envFrom" .none
  let hasConfigmap ← envFromFlag container ef
  let ev ← pyGet container "env" .none
  let hasSecret ← envFlag container ev
  let cmPair := cmRefPair hasConfigmap
  let skPair := secretRefPair hasSecret
  pure ([imgPair.1, resPair.1, lpPair.1, rpPair.1, cmPair.1, skPair.1],
        imgPair.2 + resPair.2 + lpPair.2 + rpPair.2 + cmPair.2 + skPair.2)

/-- `check_deployment` (lines 53-145 of `run.py`). -/
def check_deployment (manifest : Py) : Except PyErr EvalOut :=
  let max_points : Int := 25
  if manifest.isNone then
    .ok ([⟨"Deployment file exists", false, .str "File not found"⟩], 0, max_points)
  else do
    let hasErr ← pyContains manifest "error"
    if hasErr then do
      let e ← pySub manifest "error"
      pure ([⟨"Valid YAML", false, e⟩], 0, max_points)
    else do
      let spc ← pyGet manifest "spec" (.dict [])
      let replicas ← pyGet spc "replicas" (.int 0)
      let repOk ← pyGe replicas 2
      let repPair := replicasPair replicas repOk
      let tmpl ← pyGet spc "template" (.dict [])
      let tsp ← pyGet tmpl "spec" (.dict [])
      let containers ← pyGet tsp "containers" (.list [])
      if containers.truthy then do
        let container ← pyIndex0 containers
        let inner ← deploymentContainerChecks container
        pure (repPair.1 :: inner.1, repPair.2 + inner.2, max_points)
      else
        pure ([repPair.1, ⟨"Container defined", false, .str "No containers found"⟩],
              repPair.2, max_points)

/-- Lines 186-190 of `run.py`: the nodePort check — when
`port.get("nodePort")` is truthy the detail subscripts `port["nodePort"]`. -/
def nodePortPair (port np : Py) : Except PyErr (CheckResult × Int) :=
  if np.truthy then do
    let npv ← pySub port "nodePort"
    pure (⟨"NodePort set", true, .str ("Port " ++ pyStr npv)⟩, 5)
  else
    pure (⟨"NodePort set", false, .str "Not specified"⟩, 0)

/-- `check_service` (lines 148-194 of `run.py`). -/
def check_service (manifest : Py) : Except PyErr EvalOut :=
  let max_points : Int := 20
  if manifest.isNone then
    .ok ([⟨"Service file exists", false, .str "File not found"⟩], 0, max_points)
  else do
    let hasErr ← pyContains manifest "error"
    if hasErr then do
      let e ← pySub manifest "error"
      pure ([⟨"Valid YAML", false, e⟩], 0, max_points)
    else do
      let spc ← pyGet manifest "spec" (.dict [])
      let svcType ← pyGet spc "type" (.str "ClusterIP")
      let typePair := svcTypePair svcType (pyIsStr svcType "NodePort")
      let selector ← pyGet spc "selector" (.dict [])
      let app ← pyGet selector "app" .none
      let selPair := selectorPair selector (pyIsStr app "k8s-challenge")
      let ports ← pyGet spc "ports" (.list [])
      if ports.truthy then do
        let port ← pyIndex0 ports
        let p ← pyGet port "port" .none
        let tp ← pyGet port "targetPort" .none
        let pmPair := portMappingPair p tp (pyIsInt p 80 && pyIsInt tp 5000)
        let np ← pyGet port "nodePort" .none
        let npPair ← nodePortPair port np
        pure ([typePair.1, selPair.1, pmPair.1, npPair.1],
              typePair.2 + selPair.2 + pmPair.2 + npPair.2, max_points)
      else
        pure ([typePair.1, selPair.1, ⟨"Ports defined", false, .str "No ports configured"⟩],
              typePair.2 + selPair.2, max_points)

/-- `check_configmap` (lines 197-240 of `run.py`). -/
def check_configmap (manifest : Py) : Except PyErr EvalOut :=
  let max_points : Int := 15
  if manifest.isNone then
    .ok ([⟨"ConfigMap file exists", false, .str "File not found"⟩], 0, max_points)
  else do
    let hasErr ← pyContains manifest "error"
    if hasErr then do
      let e ← pySub manifest "error"
      pure ([⟨"Valid YAML", false, e⟩], 0, max_points)
    else do
      let meta ← pyGet manifest "metadata" (.dict [])
      let name ← pyGet meta "name" (.str "")
      let namePair := cmNamePair name (pyIsStr name "k8s-challenge-config")
      let data ← pyGet manifest "data" (.dict [])
      let hasPl ← pyContains data "PLACEHOLDER"
      let plChecks : List CheckResult :=
        if hasPl then [⟨"Remove placeholder", false, .str "PLACEHOLDER key still present"⟩] else []
      let plPts : Int := if hasPl then 0 else 2
      let found ← pyFilterKeys data requiredKeys
      let kPair := keysPair found
      pure (namePair.1 :: plChecks ++ [kPair.1], namePair.2 + plPts + kPair.2, max_points)

/-- `check_secret` (lines 243-290 of `run.py`). -/
def check_secret (manifest : Py) : Except PyErr EvalOut :=
  let max_points : Int := 15
  if manifest.isNone then
    .ok ([⟨"Secret file exists", false, .str "File not found"⟩], 0, max_points)
  else do
    let hasErr ← pyContains manifest "error"
    if hasErr then do
      let e ← pySub manifest "error"
      pure ([⟨"Valid YAML", false, e⟩], 0, max_points)
    else do
      let meta ← pyGet manifest "metadata" (.dict [])
      let name ← pyGet meta "name" (.str "")
      let namePair := secNamePair name (pyIsStr name "k8s-challenge-secrets")
      let st ← pyGet manifest "type" (.str "")
      let typePair := secTypePair st (pyIsStr st "Opaque")
      let data ← pyGet manifest "data" (.dict [])
      let apiKey ← pyGet data "api-key" (.str "")
      let apiPair := apiKeyPair apiKey
      pure ([namePair.1, typePair.1, apiPair.1],
            namePair.2 + typePair.2 + apiPair.2, max_points)

/-! ### Loading and aggregation -/

/-- The state of one manifest file as seen by `load_yaml_file`: missing,
unparsable, or parsed to a document value (an empty file or a null
document parses to Python `None`, i.e. `Py.none`). -/
inductive FileInput where
  | missing
  | parseError (msg : String)
  | doc (v : Py)

/-- `load_yaml_file` (lines 42-50 of `run.py`): `None` on
`FileNotFoundError`, an `{"error": str(e)}` dict on a YAML parse error,
otherwise the parsed document. -/
def load_yaml_file : FileInput → Py
  | .missing => .none
  | .parseError msg => .dict [("error", .str msg)]
  | .doc v => v

/-- Round-to-nearest, ties-to-even, of the rational `a / b` to an integer. -/
def rnde (a b : Nat) : Nat :=
  let q := a / b
  let r := a % b
  if b < 2 * r then q + 1
  else if 2 * r < b then q
  else if q % 2 == 0 then q else q + 1

/-- Fuel-structured `Nat.log2` (kernel-reducible). -/
def log2F : Nat → Nat → Nat
  | 0, _ => 0
  | fuel + 1, n => if 2 ≤ n then log2F fuel (n / 2) + 1 else 0

/-- Exact model of CPython `int((a / b) * 100)` under IEEE-754 binary64
with round-to-nearest-even, for `0 ≤ a ≤ b` (the range the aggregator
uses): `a / b` is the correctly rounded double of the rational `a/b`,
the product with the exactly representable `100` is correctly rounded
again, and `int` truncates. -/
def floatPct (a b : Nat) : Nat :=
  if a == 0 || b == 0 then 0
  else
    let t := log2F 200 (a * 2 ^ 64 / b)
    let s := 52 + 64 - t
    let m := rnde (a * 2 ^ s) b
    let m100 := m * 100
    let k := log2F 200 m100
    let shift := k - 52
    let m2 := rnde m100 (2 ^ shift)
    m2 * 2 ^ shift / 2 ^ s

example : floatPct 29 100 = 28 := by decide
example : floatPct 57 100 = 56 := by decide
example : floatPct 58 100 = 57 := by decide
example : floatPct 7 100 = 7 := by decide
example : floatPct 75 75 = 100 := by decide

/-- The aggregate report of `check_all_manifests`. -/
structure RunReport where
  total_points : Int
  max_total : Int
  progress_pct : Int

/-- `check_all_manifests` (lines 293-347 of `run.py`), restricted to its
scoring content: evaluate the four manifests in the fixed order, sum
points and maxima, and compute
`progress_pct = int((total_points / max_total) * 100) if max_total > 0 else 0`. -/
def check_all_manifests (dep svc cm sec : FileInput) : Except PyErr RunReport := do
  let rd ← check_deployment (load_yaml_file dep)
  let rs ← check_service (load_yaml_file svc)
  let rc ← check_configmap (load_yaml_file cm)
  let rk ← check_secret (load_yaml_file sec)
  let total := rd.2.1 + rs.2.1 + rc.2.1 + rk.2.1
  let maxT := rd.2.2 + rs.2.2 + rc.2.2 + rk.2.2
  let pct : Int := if 0 < maxT then (floatPct total.toNat maxT.toNat : Int) else 0
  pure ⟨total, maxT, pct⟩

example :
    check_all_manifests .missing .missing .missing .missing =
      .ok ⟨0, 75, 0⟩ := rfl

/-! ### Rubric constants and claim-level formulas -/

/-- Sum of the point values of the checks that passed. -/
def sumPassed (f : String → Int) (cs : List CheckResult) : Int :=
  (cs.map (fun c => if c.passed then f c.name else 0)).sum

/-- Point value of each Deployment check (spec §4.1). -/
def depVal : String → Int
  | "Replicas >= 2" => 5
  | "Correct image" => 3
  | "Resource limits" => 5
  | "Liveness probe" => 4
  | "Readiness probe" => 4
  | "ConfigMap reference" => 2
  | "Secret reference" => 2
  | _ => 0

/-- Point value of each Service check (spec §4.1). -/
def svcVal : String → Int
  | "Service type" => 5
  | "Selector matches" => 5
  | "Port mapping" => 5
  | "NodePort set" => 5
  | _ => 0

/-- Point value of each ConfigMap check that can pass (spec §4.1); the
placeholder rule and the partial credit are awarded without a passing
check line and are accounted by `cmExtra`. -/
def cmVal : String → Int
  | "Correct name" => 3
  | "All config keys" => 10
  | _ => 0

/-- Point value of each Secret check (spec §4.1). -/
def secVal : String → Int
  | "Correct name" => 3
  | "Type Opaque" => 2
  | "api-key (base64)" => 10
  | _ => 0

/-- The required data keys found in `data`, in rubric order. -/
def cmFound (data : Py) : List String :=
  requiredKeys.filter (fun k => (pyContains data k).toOption.getD false)

/-- The ConfigMap points that are not attached to a passing check: the
silent 2 placeholder-absence points and the `3 × found` partial credit
when not all required keys are present (spec §4.1). -/
def cmExtra (v : Py) : Int :=
  match v with
  | .dict kvs =>
      if (kvs.lookup "error").isSome then 0
      else
        let data := pyGetD (.dict kvs) "data" (.dict [])
        let pl := (pyContains data "PLACEHOLDER").toOption.getD true
        let found := cmFound data
        (if pl then 0 else 2) +
          (if found.length == requiredKeys.length then 0 else 3 * (found.length : Int))
  | _ => 0

/-- The value `check_deployment` reads at `spec.template.spec.containers`. -/
def containersOf (v : Py) : Py :=
  pyGetD (pyGetD (pyGetD (pyGetD v "spec" (.dict [])) "template" (.dict []))
    "spec" (.dict [])) "containers" (.list [])

/-- The value `check_deployment` reads at `spec.replicas`. -/
def replicasOf (v : Py) : Py :=
  pyGetD (pyGetD v "spec" (.dict [])) "replicas" (.int 0)

/-- The value `check_service` reads at `spec.ports`. -/
def portsOf (v : Py) : Py :=
  pyGetD (pyGetD v "spec" (.dict [])) "ports" (.list [])

/-- Whether the replicas check passes (`replicas >= 2`). -/
def replicasPass (v : Py) : Bool :=
  (pyGe (replicasOf v) 2).toOption.getD false

/-- The api-key check as the spec describes it (§4.1 Secret), as a
function of the string stored at `data.api-key` (defaulted to `""`):
absent/empty/placeholder → no decode, otherwise decode with the three
outcomes.  `check_secret` is proved to refine this. -/
def specApiKeyCheck (k : String) : CheckResult :=
  if k == "" || k == "REPLACE-WITH-BASE64-ENCODED-VALUE" then
    ⟨"api-key (base64)", false, .str "Not set or still placeholder"⟩
  else
    match b64DecodedChars (.str k) with
    | Option.none => ⟨"api-key (base64)", false, .str "Invalid base64 encoding"⟩
    | some [] => ⟨"api-key (base64)", false, .str "Empty value"⟩
    | some cs =>
        ⟨"api-key (base64)", true, .str ("Valid (" ++ toString cs.length ++ " chars decoded)")⟩

/-! ### Well-formedness: the shapes on which the evaluators cannot raise -/

/-- An `env` entry: a mapping whose `valueFrom` (defaulted) is a mapping. -/
def wfEnvEntry (e : Py) : Bool :=
  e.isDict && (pyGetD e "valueFrom" (.dict [])).isDict

/-- A probe field: if truthy it is a mapping whose `httpGet` (defaulted)
is a mapping. -/
def wfProbe (c : Py) (key : String) : Bool :=
  !(pyGetD c key .none).truthy ||
    ((pyGetD c key .none).isDict &&
      (pyGetD (pyGetD c key .none) "httpGet" (.dict [])).isDict)

/-- An `envFrom` field: if truthy, a sequence of mappings. -/
def wfEnvFrom (v : Py) : Bool :=
  !v.truthy ||
    (match v with
     | .list xs => xs.all Py.isDict
     | _ => false)

/-- An `env` field: if truthy, a sequence of well-formed env entries. -/
def wfEnv (v : Py) : Bool :=
  !v.truthy ||
    (match v with
     | .list xs => xs.all wfEnvEntry
     | _ => false)

/-- A container entry with the field types the Deployment rubric expects. -/
def wfContainer (c : Py) : Bool :=
  c.isDict &&
  (pyGetD c "image" (.str "")).isStr &&
  (pyGetD c "resources" (.dict [])).isDict &&
  wfProbe c "livenessProbe" &&
  wfProbe c "readinessProbe" &&
  wfEnvFrom (pyGetD c "envFrom" .none) &&
  wfEnv (pyGetD c "env" .none)

/-- Manifest shapes on which `check_deployment` returns normally:
`None`, a mapping with an `error` key, or a mapping whose accessed
nested fields (where present) have the expected types. -/
def wf_deployment (v : Py) : Bool :=
  match v with
  | .none => true
  | .dict kvs =>
      (kvs.lookup "error").isSome ||
      ((pyGetD (.dict kvs) "spec" (.dict [])).isDict &&
       (pyGetD (pyGetD (.dict kvs) "spec" (.dict [])) "replicas" (.int 0)).isNum &&
       (pyGetD (pyGetD (.dict kvs) "spec" (.dict [])) "template" (.dict [])).isDict &&
       (pyGetD (pyGetD (pyGetD (.dict kvs) "spec" (.dict [])) "template" (.dict []))
         "spec" (.dict [])).isDict &&
       (!(containersOf (.dict kvs)).truthy ||
         (match containersOf (.dict kvs) with
          | .list (c :: _) => wfContainer c
          | .list [] => true
          | _ => false)))
  | _ => false

/-- Manifest shapes on which `check_service` returns normally. -/
def wf_service (v : Py) : Bool :=
  match v with
  | .none => true
  | .dict kvs =>
      (kvs.lookup "error").isSome ||
      ((pyGetD (.dict kvs) "spec" (.dict [])).isDict &&
       (pyGetD (pyGetD (.dict kvs) "spec" (.dict [])) "selector" (.dict [])).isDict &&
       (!(portsOf (.dict kvs)).truthy ||
         (match portsOf (.dict kvs) with
          | .list (p :: _) => p.isDict
          | .list [] => true
          | _ => false)))
  | _ => false

/-- Manifest shapes on which `check_configmap` returns normally (`data`
may be any container type, since it is only used with `in`). -/
def wf_configmap (v : Py) : Bool :=
  match v with
  | .none => true
  | .dict kvs =>
      (kvs.lookup "error").isSome ||
      ((pyGetD (.dict kvs) "metadata" (.dict [])).isDict &&
       ((pyGetD (.dict kvs) "data" (.dict [])).isDict ||
        (pyGetD (.dict kvs) "data" (.dict [])).isStr ||
        (pyGetD (.dict kvs) "data" (.dict [])).isList))
  | _ => false

/-- Manifest shapes on which `check_secret` returns normally. -/
def wf_secret (v : Py) : Bool :=
  match v with
  | .none => true
  | .dict kvs =>
      (kvs.lookup "error").isSome ||
      ((pyGetD (.dict kvs) "metadata" (.dict [])).isDict &&
       (pyGetD (.dict kvs) "data" (.dict [])).isDict)
  | _ => false

/-! ### Except-monad plumbing -/

theorem bind_ok {α β : Type} {e : Except PyErr α} {f : α → Except PyErr β} {r : β}
    (h : e >>= f = .ok r) : ∃ a, e = .ok a ∧ f a = .ok r := by
  cases e with
  | error ex => simp [Bind.bind, Except.bind] at h
  | ok a => exact ⟨a, rfl, by simpa [Bind.bind, Except.bind] using h⟩

theorem pure_ok {α : Type} {x r : α} (h : (pure x : Except PyErr α) = .ok r) : x = r := by
  simpa [pure, Except.pure] using h

theorem bind_ok_intro {α β : Type} {e : Except PyErr α} {f : α → Except PyErr β} {a : α}
    (h : e = .ok a) (h2 : (f a).isOk = true) : (e >>= f).isOk = true := by
  subst h
  simpa [Bind.bind, Except.bind] using h2

theorem pyGet_dict {v : Py} (h : v.isDict = true) (k : String) (d : Py) :
    pyGet v k d = .ok (pyGetD v k d) := by
  cases v <;> simp_all [pyGet, pyGetD, Py.isDict]

/-! ### Scored-pair characterization -/

/-- A `(check, points)` pair scores `v` points exactly when it passed,
and its name is worth `v` in the value table `f`. -/
def scoredPair (f : String → Int) (pr : CheckResult × Int) (v : Int) : Prop :=
  pr.2 = (if pr.1.passed then v else 0) ∧ f pr.1.name = v

theorem scoredPair_bounds {f : String → Int} {pr : CheckResult × Int} {v : Int}
    (h : scoredPair f pr v) (hv : 0 ≤ v) : 0 ≤ pr.2 ∧ pr.2 ≤ v := by
  obtain ⟨h1, -⟩ := h
  rw [h1]
  refine ⟨?_, ?_⟩ <;> split <;> omega

theorem sumPassed_nil (f : String → Int) : sumPassed f [] = 0 := rfl

theorem sumPassed_cons {f : String → Int} {pr : CheckResult × Int} {v : Int}
    (h : scoredPair f pr v) (rest : List CheckResult) :
    sumPassed f (pr.1 :: rest) = pr.2 + sumPassed f rest := by
  obtain ⟨h1, h2⟩ := h
  simp only [sumPassed, List.map_cons, List.sum_cons]
  rw [h2, h1]

theorem sumPassed_cons_fail {f : String → Int} {c : CheckResult}
    (h : c.passed = false) (rest : List CheckResult) :
    sumPassed f (c :: rest) = sumPassed f rest := by
  simp only [sumPassed, List.map_cons, List.sum_cons, h]
  simp

theorem replicasPair_scored (r : Py) (b : Bool) : scoredPair depVal (replicasPair r b) 5 := by
  cases b <;> exact ⟨rfl, rfl⟩

theorem imagePair_scored (i : Py) (b : Bool) : scoredPair depVal (imagePair i b) 3 := by
  cases b <;> exact ⟨rfl, rfl⟩

theorem resourcesPair_scored (b : Bool) : scoredPair depVal (resourcesPair b) 5 := by
  cases b <;> exact ⟨rfl, rfl⟩

theorem cmRefPair_scored (b : Bool) : scoredPair depVal (cmRefPair b) 2 := by
  cases b <;> exact ⟨rfl, rfl⟩

theorem secretRefPair_scored (b : Bool) : scoredPair depVal (secretRefPair b) 2 := by
  cases b <;> exact ⟨rfl, rfl⟩

theorem svcTypePair_scored (t : Py) (b : Bool) : scoredPair svcVal (svcTypePair t b) 5 := by
  cases b <;> exact ⟨rfl, rfl⟩

theorem selectorPair_scored (s : Py) (b : Bool) : scoredPair svcVal (selectorPair s b) 5 := by
  cases b <;> exact ⟨rfl, rfl⟩

theorem portMappingPair_scored (p tp : Py) (b : Bool) :
    scoredPair svcVal (portMappingPair p tp b) 5 := by
  cases b <;> exact ⟨rfl, rfl⟩

theorem cmNamePair_scored (n : Py) (b : Bool) : scoredPair cmVal (cmNamePair n b) 3 := by
  cases b <;> exact ⟨rfl, rfl⟩

theorem secNamePair_scored (n : Py) (b : Bool) : scoredPair secVal (secNamePair n b) 3 := by
  cases b <;> exact ⟨rfl, rfl⟩

theorem secTypePair_scored (t : Py) (b : Bool) : scoredPair secVal (secTypePair t b) 2 := by
  cases b <;> exact ⟨rfl, rfl⟩

theorem apiKeyPair_scored (k : Py) : scoredPair secVal (apiKeyPair k) 10 := by
  unfold apiKeyPair
  split
  · split
    · split
      · exact ⟨rfl, rfl⟩
      · exact ⟨rfl, rfl⟩
    · exact ⟨rfl, rfl⟩
  · exact ⟨rfl, rfl⟩

theorem probeCheck_scored {c : Py} {key label : String} {pr : CheckResult × Int}
    (h : probeCheck c key label = .ok pr) :
    pr.1.name = label ∧ pr.2 = (if pr.1.passed then 4 else 0) := by
  unfold probeCheck at h
  obtain ⟨p0, -, h⟩ := bind_ok h
  split at h
  · obtain ⟨probe, -, h⟩ := bind_ok h
    obtain ⟨hg, -, h⟩ := bind_ok h
    obtain ⟨path, -, h⟩ := bind_ok h
    split at h <;> (replace h := pure_ok h; subst h; exact ⟨rfl, rfl⟩)
  · replace h := pure_ok h
    subst h
    exact ⟨rfl, rfl⟩

/-! ### Evaluator characterizations: fixed maximum, score = sum of
passed checks, bounds -/

theorem dcc_char {c : Py} {out : List CheckResult × Int}
    (h : deploymentContainerChecks c = .ok out) :
    out.2 = sumPassed depVal out.1 ∧ 0 ≤ out.2 ∧ out.2 ≤ 20 := by
  unfold deploymentContainerChecks at h
  obtain ⟨image, -, h⟩ := bind_ok h
  obtain ⟨imgOk, -, h⟩ := bind_ok h
  obtain ⟨resources, -, h⟩ := bind_ok h
  obtain ⟨limits, -, h⟩ := bind_ok h
  obtain ⟨requests, -, h⟩ := bind_ok h
  obtain ⟨lpPair, hlp, h⟩ := bind_ok h
  obtain ⟨rpPair, hrp, h⟩ := bind_ok h
  obtain ⟨ef, -, h⟩ := bind_ok h
  obtain ⟨hasCM, -, h⟩ := bind_ok h
  obtain ⟨ev, -, h⟩ := bind_ok h
  obtain ⟨hasSec, -, h⟩ := bind_ok h
  replace h := pure_ok h
  subst h
  have hImg := imagePair_scored image imgOk
  have hRes := resourcesPair_scored (limits.truthy && requests.truthy)
  have hLp0 := probeCheck_scored hlp
  have hRp0 := probeCheck_scored hrp
  have hLp : scoredPair depVal lpPair 4 := ⟨hLp0.2, by rw [hLp0.1]; decide⟩
  have hRp : scoredPair depVal rpPair 4 := ⟨hRp0.2, by rw [hRp0.1]; decide⟩
  have hCm := cmRefPair_scored hasCM
  have hSk := secretRefPair_scored hasSec
  refine ⟨?_, ?_, ?_⟩
  · rw [sumPassed_cons hImg, sumPassed_cons hRes, sumPassed_cons hLp, sumPassed_cons hRp,
        sumPassed_cons hCm, sumPassed_cons hSk, sumPassed_nil]
    ring
  · have b1 := scoredPair_bounds hImg (by norm_num)
    have b2 := scoredPair_bounds hRes (by norm_num)
    have b3 := scoredPair_bounds hLp (by norm_num)
    have b4 := scoredPair_bounds hRp (by norm_num)
    have b5 := scoredPair_bounds hCm (by norm_num)
    have b6 := scoredPair_bounds hSk (by norm_num)
    simp only []
    omega
  · have b1 := scoredPair_bounds hImg (by norm_num)
    have b2 := scoredPair_bounds hRes (by norm_num)
    have b3 := scoredPair_bounds hLp (by norm_num)
    have b4 := scoredPair_bounds hRp (by norm_num)
    have b5 := scoredPair_bounds hCm (by norm_num)
    have b6 := scoredPair_bounds hSk (by norm_num)
    simp only []
    omega

theorem dep_char {v : Py} {cs : List CheckResult} {p m : Int}
    (h : check_deployment v = .ok (cs, p, m)) :
    m = 25 ∧ p = sumPassed depVal cs ∧ 0 ≤ p ∧ p ≤ 25 := by
  unfold check_deployment at h
  split at h
  · simp only [Except.ok.injEq, Prod.mk.injEq] at h
    obtain ⟨hcs, hp, hm⟩ := h
    subst hcs; subst hp; subst hm
    exact ⟨rfl, rfl, le_refl 0, by norm_num⟩
  · obtain ⟨hasErr, -, h⟩ := bind_ok h
    split at h
    · obtain ⟨e, -, h⟩ := bind_ok h
      replace h := pure_ok h
      simp only [Prod.mk.injEq] at h
      obtain ⟨hcs, hp, hm⟩ := h
      subst hcs; subst hp; subst hm
      refine ⟨rfl, ?_, le_refl 0, by norm_num⟩
      rw [sumPassed_cons_fail rfl, sumPassed_nil]
    · obtain ⟨spc, -, h⟩ := bind_ok h
      obtain ⟨replicas, -, h⟩ := bind_ok h
      obtain ⟨repOk, -, h⟩ := bind_ok h
      obtain ⟨tmpl, -, h⟩ := bind_ok h
      obtain ⟨tsp, -, h⟩ := bind_ok h
      obtain ⟨containers, -, h⟩ := bind_ok h
      have hRep := replicasPair_scored replicas repOk
      have hRepB := scoredPair_bounds hRep (by norm_num)
      split at h
      · obtain ⟨container, -, h⟩ := bind_ok h
        obtain ⟨inner, hinner, h⟩ := bind_ok h
        replace h := pure_ok h
        simp only [Prod.mk.injEq] at h
        obtain ⟨hcs, hp, hm⟩ := h
        subst hcs; subst hp; subst hm
        have hIn := dcc_char hinner
        refine ⟨rfl, ?_, ?_, ?_⟩
        · rw [sumPassed_cons hRep, hIn.1]
        · omega
        · omega
      · replace h := pure_ok h
        simp only [Prod.mk.injEq] at h
        obtain ⟨hcs, hp, hm⟩ := h
        subst hcs; subst hp; subst hm
        refine ⟨rfl, ?_, ?_, ?_⟩
        · rw [sumPassed_cons hRep, sumPassed_cons_fail rfl, sumPassed_nil]
          ring
        · omega
        · omega

theorem nodePortPair_scored {port np : Py} {pr : CheckResult × Int}
    (h : nodePortPair port np = .ok pr) : scoredPair svcVal pr 5 := by
  unfold nodePortPair at h
  split at h
  · obtain ⟨npv, -, h⟩ := bind_ok h
    replace h := pure_ok h
    subst h
    exact ⟨rfl, rfl⟩
  · replace h := pure_ok h
    subst h
    exact ⟨rfl, rfl⟩

theorem svc_char {v : Py} {cs : List CheckResult} {p m : Int}
    (h : check_service v = .ok (cs, p, m)) :
    m = 20 ∧ p = sumPassed svcVal cs ∧ 0 ≤ p ∧ p ≤ 20 := by
  unfold check_service at h
  split at h
  · simp only [Except.ok.injEq, Prod.mk.injEq] at h
    obtain ⟨hcs, hp, hm⟩ := h
    subst hcs; subst hp; subst hm
    exact ⟨rfl, rfl, le_refl 0, by norm_num⟩
  · obtain ⟨hasErr, -, h⟩ := bind_ok h
    split at h
    · obtain ⟨e, -, h⟩ := bind_ok h
      replace h := pure_ok h
      simp only [Prod.mk.injEq] at h
      obtain ⟨hcs, hp, hm⟩ := h
      subst hcs; subst hp; subst hm
      refine ⟨rfl, ?_, le_refl 0, by norm_num⟩
      rw [sumPassed_cons_fail rfl, sumPassed_nil]
    · obtain ⟨spc, -, h⟩ := bind_ok h
      obtain ⟨svcType, -, h⟩ := bind_ok h
      obtain ⟨selector, -, h⟩ := bind_ok h
      obtain ⟨app, -, h⟩ := bind_ok h
      obtain ⟨ports, -, h⟩ := bind_ok h
      have hT := svcTypePair_scored svcType (pyIsStr svcType "NodePort")
      have hS := selectorPair_scored selector (pyIsStr app "k8s-challenge")
      have hTB := scoredPair_bounds hT (by norm_num)
      have hSB := scoredPair_bounds hS (by norm_num)
      split at h
      · obtain ⟨port, -, h⟩ := bind_ok h
        obtain ⟨pp, -, h⟩ := bind_ok h
        obtain ⟨tp, -, h⟩ := bind_ok h
        obtain ⟨np, -, h⟩ := bind_ok h
        obtain ⟨npPair, hnp, h⟩ := bind_ok h
        replace h := pure_ok h
        simp only [Prod.mk.injEq] at h
        obtain ⟨hcs, hp, hm⟩ := h
        subst hcs; subst hp; subst hm
        have hPM := portMappingPair_scored pp tp (pyIsInt pp 80 && pyIsInt tp 5000)
        have hNp := nodePortPair_scored hnp
        have hPMB := scoredPair_bounds hPM (by norm_num)
        have hNpB := scoredPair_bounds hNp (by norm_num)
        refine ⟨rfl, ?_, ?_, ?_⟩
        · rw [sumPassed_cons hT, sumPassed_cons hS, sumPassed_cons hPM, sumPassed_cons hNp,
             sumPassed_nil]
          ring
        · omega
        · omega
      · replace h := pure_ok h
        simp only [Prod.mk.injEq] at h
        obtain ⟨hcs, hp, hm⟩ := h
        subst hcs; subst hp; subst hm
        refine ⟨rfl, ?_, ?_, ?_⟩
        · rw [sumPassed_cons hT, sumPassed_cons hS, sumPassed_cons_fail rfl, sumPassed_nil]
          ring
        · omega
        · omega

theorem sec_char {v : Py} {cs : List CheckResult} {p m : Int}
    (h : check_secret v = .ok (cs, p, m)) :
    m = 15 ∧ p = sumPassed secVal cs ∧ 0 ≤ p ∧ p ≤ 15 := by
  unfold check_secret at h
  split at h
  · simp only [Except.ok.injEq, Prod.mk.injEq] at h
    obtain ⟨hcs, hp, hm⟩ := h
    subst hcs; subst hp; subst hm
    exact ⟨rfl, rfl, le_refl 0, by norm_num⟩
  · obtain ⟨hasErr, -, h⟩ := bind_ok h
    split at h
    · obtain ⟨e, -, h⟩ := bind_ok h
      replace h := pure_ok h
      simp only [Prod.mk.injEq] at h
      obtain ⟨hcs, hp, hm⟩ := h
      subst hcs; subst hp; subst hm
      refine ⟨rfl, ?_, le_refl 0, by norm_num⟩
      rw [sumPassed_cons_fail rfl, sumPassed_nil]
    · obtain ⟨meta, -, h⟩ := bind_ok h
      obtain ⟨name, -, h⟩ := bind_ok h
      obtain ⟨st, -, h⟩ := bind_ok h
      obtain ⟨data, -, h⟩ := bind_ok h
      obtain ⟨apiKey, -, h⟩ := bind_ok h
      replace h := pure_ok h
      simp only [Prod.mk.injEq] at h
      obtain ⟨hcs, hp, hm⟩ := h
      subst hcs; subst hp; subst hm
      have hN := secNamePair_scored name (pyIsStr name "k8s-challenge-secrets")
      have hT := secTypePair_scored st (pyIsStr st "Opaque")
      have hA := apiKeyPair_scored apiKey
      have hNB := scoredPair_bounds hN (by norm_num)
      have hTB := scoredPair_bounds hT (by norm_num)
      have hAB := scoredPair_bounds hA (by norm_num)
      refine ⟨rfl, ?_, ?_, ?_⟩
      · rw [sumPassed_cons hN, sumPassed_cons hT, sumPassed_cons hA, sumPassed_nil]
        ring
      · omega
      · omega

theorem pyFilterKeys_eq {data : Py} {ks found : List String}
    (h : pyFilterKeys data ks = .ok found) :
    found = ks.filter (fun k => (pyContains data k).toOption.getD false) := by
  induction ks generalizing found with
  | nil =>
    replace h : ([] : List String) = found := by simpa [pyFilterKeys] using h
    simp [← h]
  | cons k ks ih =>
    unfold pyFilterKeys at h
    obtain ⟨b, hb, h⟩ := bind_ok h
    obtain ⟨rest, hrest, h⟩ := bind_ok h
    replace h := pure_ok h
    subst h
    rw [List.filter_cons, ← ih hrest]
    simp [hb, Except.toOption]

theorem keysPair_all {found : List String}
    (hlen : (found.length == requiredKeys.length) = true) :
    (keysPair found).2 = 10 ∧ sumPassed cmVal [(keysPair found).1] = 10 := by
  rw [keysPair, if_pos hlen]
  refine ⟨rfl, ?_⟩
  simp [sumPassed]
  decide

theorem keysPair_partial {found : List String}
    (hlen : (found.length == requiredKeys.length) = false) :
    (keysPair found).2 = 3 * (found.length : Int) ∧
      sumPassed cmVal [(keysPair found).1] = 0 := by
  rw [keysPair, if_neg (by simp [hlen])]
  refine ⟨rfl, ?_⟩
  simp [sumPassed]

theorem cm_char {v : Py} {cs : List CheckResult} {p m : Int}
    (h : check_configmap v = .ok (cs, p, m)) :
    m = 15 ∧ p = sumPassed cmVal cs + cmExtra v ∧ 0 ≤ p ∧ p ≤ 15 := by
  cases v with
  | bool b =>
    unfold check_configmap at h
    rw [if_neg (by simp [Py.isNone])] at h
    obtain ⟨hasErr, hErr, h⟩ := bind_ok h
    simp [pyContains] at hErr
  | int n =>
    unfold check_configmap at h
    rw [if_neg (by simp [Py.isNone])] at h
    obtain ⟨hasErr, hErr, h⟩ := bind_ok h
    simp [pyContains] at hErr
  | str s =>
    unfold check_configmap at h
    rw [if_neg (by simp [Py.isNone])] at h
    obtain ⟨hasErr, hErr, h⟩ := bind_ok h
    split at h
    · obtain ⟨e, hSub, h⟩ := bind_ok h
      simp [pySub] at hSub
    · obtain ⟨meta, hMeta, h⟩ := bind_ok h
      simp [pyGet] at hMeta
  | list xs =>
    unfold check_configmap at h
    rw [if_neg (by simp [Py.isNone])] at h
    obtain ⟨hasErr, hErr, h⟩ := bind_ok h
    split at h
    · obtain ⟨e, hSub, h⟩ := bind_ok h
      simp [pySub] at hSub
    · obtain ⟨meta, hMeta, h⟩ := bind_ok h
      simp [pyGet] at hMeta
  | none =>
    unfold check_configmap at h
    rw [if_pos (by simp [Py.isNone])] at h
    simp only [Except.ok.injEq, Prod.mk.injEq] at h
    obtain ⟨hcs, hp, hm⟩ := h
    subst hcs; subst hp; subst hm
    refine ⟨rfl, ?_, le_refl 0, by norm_num⟩
    rw [sumPassed_cons_fail rfl, sumPassed_nil]
    decide
  | dict kvs =>
    unfold check_configmap at h
    rw [if_neg (by simp [Py.isNone])] at h
    obtain ⟨hasErr, hErr, h⟩ := bind_ok h
    replace hErr : hasErr = (kvs.lookup "error").isSome := by
      simpa [pyContains] using hErr.symm
    split at h
    · obtain ⟨e, hSub, h⟩ := bind_ok h
      replace h := pure_ok h
      simp only [Prod.mk.injEq] at h
      obtain ⟨hcs, hp, hm⟩ := h
      subst hcs; subst hp; subst hm
      refine ⟨rfl, ?_, le_refl 0, by norm_num⟩
      rw [sumPassed_cons_fail rfl, sumPassed_nil]
      have hSome : ((kvs.lookup "error").isSome : Bool) = true := by
        rw [← hErr]; assumption
      simp [cmExtra, hSome]
    · obtain ⟨meta, hMeta, h⟩ := bind_ok h
      obtain ⟨name, hName, h⟩ := bind_ok h
      obtain ⟨data, hData, h⟩ := bind_ok h
      obtain ⟨hasPl, hPl, h⟩ := bind_ok h
      obtain ⟨found, hFound, h⟩ := bind_ok h
      replace h := pure_ok h
      simp only [Prod.mk.injEq] at h
      obtain ⟨hcs, hp, hm⟩ := h
      subst hcs; subst hp; subst hm
      have hErrF : ((kvs.lookup "error").isSome : Bool) = false := by
        rw [← hErr]; simp_all
      have hDataD : data = pyGetD (.dict kvs) "data" (.dict []) := by
        simpa [pyGet, pyGetD] using hData.symm
      have hFoundD : found = cmFound data := by
        rw [cmFound, pyFilterKeys_eq hFound]
      have hPlD : (pyContains data "PLACEHOLDER").toOption.getD true = hasPl := by
        simp [hPl, Except.toOption]
      have hExtra : cmExtra (.dict kvs) =
          (if hasPl then 0 else 2) +
            (if found.length == requiredKeys.length then 0
             else 3 * (found.length : Int)) := by
        simp only [cmExtra, hErrF, Bool.false_eq_true, if_false, ← hDataD]
        rw [hPlD, ← hFoundD]
      have hN := cmNamePair_scored name (pyIsStr name "k8s-challenge-config")
      have hNB := scoredPair_bounds hN (by norm_num)
      have hLen : found.length ≤ 3 := by
        rw [hFoundD, cmFound]
        have := List.length_filter_le
          (fun k => (pyContains data k).toOption.getD false) requiredKeys
        simpa [requiredKeys] using this
      rw [hExtra]
      cases hpl : hasPl <;> cases hlen : (found.length == requiredKeys.length) <;>
        simp only [Bool.false_eq_true, eq_self_iff_true, if_true, if_false,
          List.nil_append, List.singleton_append, List.cons_append]
      · obtain ⟨hk2, hks⟩ := keysPair_partial hlen
        refine ⟨trivial, ?_, ?_, ?_⟩
        · rw [sumPassed_cons hN, show sumPassed cmVal [(keysPair found).1] = 0 from hks, hk2]
          omega
        · rw [hk2]
          omega
        · rw [hk2]
          omega
      · obtain ⟨hk2, hks⟩ := keysPair_all hlen
        refine ⟨trivial, ?_, ?_, ?_⟩
        · rw [sumPassed_cons hN, show sumPassed cmVal [(keysPair found).1] = 10 from hks, hk2]
          omega
        · rw [hk2]
          omega
        · rw [hk2]
          omega
      · obtain ⟨hk2, hks⟩ := keysPair_partial hlen
        refine ⟨trivial, ?_, ?_, ?_⟩
        · rw [sumPassed_cons hN, sumPassed_cons_fail rfl,
              show sumPassed cmVal [(keysPair found).1] = 0 from hks, hk2]
          omega
        · rw [hk2]
          omega
        · rw [hk2]
          omega
      · obtain ⟨hk2, hks⟩ := keysPair_all hlen
        refine ⟨trivial, ?_, ?_, ?_⟩
        · rw [sumPassed_cons hN, sumPassed_cons_fail rfl,
              show sumPassed cmVal [(keysPair found).1] = 10 from hks, hk2]
          omega
        · rw [hk2]
          omega
        · rw [hk2]
          omega

/-! ### Totality on well-formed manifests -/

theorem bind_isOk {α β : Type} {e : Except PyErr α} {f : α → Except PyErr β}
    (he : e.isOk = true) (hf : ∀ a, e = .ok a → (f a).isOk = true) :
    (e >>= f).isOk = true := by
  cases e with
  | error ex => simp [Except.isOk, Except.toBool] at he
  | ok a => simpa [Bind.bind, Except.bind] using hf a rfl

theorem pyGet_isOk {v : Py} (h : v.isDict = true) (k : String) (d : Py) :
    (pyGet v k d).isOk = true := by
  cases v <;> simp_all [pyGet, Py.isDict, Except.isOk, Except.toBool]

theorem pyGet_val {v : Py} {k : String} {d a : Py} (h : pyGet v k d = .ok a) :
    a = pyGetD v k d := by
  cases v <;> simp_all [pyGet, pyGetD]

theorem pyContains_isOk {v : Py} (h : (v.isDict || v.isStr || v.isList) = true)
    (n : String) : (pyContains v n).isOk = true := by
  cases v <;> simp_all [pyContains, Py.isDict, Py.isStr, Py.isList, Except.isOk, Except.toBool]

theorem pyGe_isOk {v : Py} (h : v.isNum = true) (n : Int) : (pyGe v n).isOk = true := by
  cases v <;> simp_all [pyGe, Py.isNum, Except.isOk, Except.toBool]

theorem lookup_of_truthy {kvs : List (String × Py)} {k : String}
    (h : (pyGetD (.dict kvs) k .none).truthy = true) :
    kvs.lookup k = some (pyGetD (.dict kvs) k .none) := by
  simp only [pyGetD] at h ⊢
  cases hl : kvs.lookup k with
  | none => rw [hl] at h; simp [Py.truthy] at h
  | some x => simp [hl]

theorem pySub_of_truthy {kvs : List (String × Py)} {k : String}
    (h : (pyGetD (.dict kvs) k .none).truthy = true) :
    pySub (.dict kvs) k = .ok (pyGetD (.dict kvs) k .none) := by
  have := lookup_of_truthy h
  simp [pySub, this]

theorem pyAnyLoop_isOk {f : Py → Except PyErr Bool} {xs : List Py}
    (hf : ∀ x ∈ xs, (f x).isOk = true) (acc : Bool) :
    (pyAnyLoop f xs acc).isOk = true := by
  induction xs generalizing acc with
  | nil => rfl
  | cons x xs ih =>
    have hx := hf x (by simp)
    unfold pyAnyLoop
    refine bind_isOk hx ?_
    intro b hb
    exact ih (fun y hy => hf y (by simp [hy])) (acc || b)

theorem probeCheck_isOk {kvs : List (String × Py)} {key : String}
    (h : wfProbe (.dict kvs) key = true) (label : String) :
    (probeCheck (.dict kvs) key label).isOk = true := by
  unfold probeCheck
  refine bind_isOk (@pyGet_isOk (.dict kvs) rfl key .none) ?_
  intro p hp
  replace hp := pyGet_val hp
  subst hp
  by_cases ht : (pyGetD (.dict kvs) key .none).truthy = true
  · rw [if_pos ht]
    unfold wfProbe at h
    rw [Bool.or_eq_true] at h
    rcases h with h | h
    · rw [ht] at h
      simp at h
    · rw [Bool.and_eq_true] at h
      obtain ⟨hpd, hhg⟩ := h
      have hsub := pySub_of_truthy ht
      refine bind_isOk (by rw [hsub]; rfl) ?_
      intro probe hprobe
      rw [hsub] at hprobe
      replace hprobe := (Except.ok.inj hprobe).symm
      subst hprobe
      refine bind_isOk (pyGet_isOk hpd _ _) ?_
      intro hg hhg2
      replace hhg2 := pyGet_val hhg2
      subst hhg2
      refine bind_isOk (pyGet_isOk hhg _ _) ?_
      intro path hpath
      split <;> rfl
  · rw [if_neg ht]
    rfl

theorem envFromFlag_isOk {kvs : List (String × Py)} {ef : Py}
    (hef : ef = pyGetD (.dict kvs) "envFrom" .none) (h : wfEnvFrom ef = true) :
    (envFromFlag (.dict kvs) ef).isOk = true := by
  subst hef
  unfold envFromFlag
  by_cases ht : (pyGetD (.dict kvs) "envFrom" .none).truthy = true
  · rw [if_pos ht]
    have hsub := pySub_of_truthy ht
    refine bind_isOk (by rw [hsub]; rfl) ?_
    intro efv hefv
    rw [hsub] at hefv
    replace hefv := (Except.ok.inj hefv).symm
    subst hefv
    unfold wfEnvFrom at h
    rw [Bool.or_eq_true] at h
    rcases h with h | h
    · rw [ht] at h
      simp at h
    · generalize hE : pyGetD (Py.dict kvs) "envFrom" Py.none = E at h ⊢
      cases E with
      | list xs =>
        simp only [pyForAny]
        refine pyAnyLoop_isOk ?_ false
        intro x hx
        have hxd : x.isDict = true := by
          rw [List.all_eq_true] at h
          exact h x hx
        exact bind_isOk (pyGet_isOk hxd _ _) (fun a _ => rfl)
      | none => simp at h
      | bool b => simp at h
      | int n => simp at h
      | str s => simp at h
      | dict d => simp at h
  · rw [if_neg ht]
    rfl

theorem envFlag_isOk {kvs : List (String × Py)} {ev : Py}
    (hev : ev = pyGetD (.dict kvs) "env" .none) (h : wfEnv ev = true) :
    (envFlag (.dict kvs) ev).isOk = true := by
  subst hev
  unfold envFlag
  by_cases ht : (pyGetD (.dict kvs) "env" .none).truthy = true
  · rw [if_pos ht]
    have hsub := pySub_of_truthy ht
    refine bind_isOk (by rw [hsub]; rfl) ?_
    intro evv hevv
    rw [hsub] at hevv
    replace hevv := (Except.ok.inj hevv).symm
    subst hevv
    unfold wfEnv at h
    rw [Bool.or_eq_true] at h
    rcases h with h | h
    · rw [ht] at h
      simp at h
    · generalize hE : pyGetD (Py.dict kvs) "env" Py.none = E at h ⊢
      cases E with
      | list xs =>
        simp only [pyForAny]
        refine pyAnyLoop_isOk ?_ false
        intro x hx
        have hxw : wfEnvEntry x = true := by
          rw [List.all_eq_true] at h
          exact h x hx
        rw [wfEnvEntry, Bool.and_eq_true] at hxw
        obtain ⟨hxd, hvf⟩ := hxw
        refine bind_isOk (pyGet_isOk hxd _ _) ?_
        intro vf hvf2
        replace hvf2 := pyGet_val hvf2
        subst hvf2
        exact bind_isOk (pyGet_isOk hvf _ _) (fun a _ => rfl)
      | none => simp at h
      | bool b => simp at h
      | int n => simp at h
      | str s => simp at h
      | dict d => simp at h
  · rw [if_neg ht]
    rfl

theorem dcc_wf_ok {c : Py} (h : wfContainer c = true) :
    (deploymentContainerChecks c).isOk = true := by
  cases c with
  | none => simp [wfContainer, Py.isDict] at h
  | bool b => simp [wfContainer, Py.isDict] at h
  | int n => simp [wfContainer, Py.isDict] at h
  | str s => simp [wfContainer, Py.isDict] at h
  | list xs => simp [wfContainer, Py.isDict] at h
  | dict kvs =>
    unfold wfContainer at h
    rw [Bool.and_eq_true, Bool.and_eq_true, Bool.and_eq_true, Bool.and_eq_true,
        Bool.and_eq_true, Bool.and_eq_true] at h
    obtain ⟨⟨⟨⟨⟨⟨-, hImg⟩, hRes⟩, hLp⟩, hRp⟩, hEf⟩, hEv⟩ := h
    unfold deploymentContainerChecks
    refine bind_isOk (@pyGet_isOk (.dict kvs) rfl "image" (.str "")) ?_
    intro image himage
    replace himage := pyGet_val himage
    subst himage
    refine bind_isOk (pyContains_isOk (by simp [hImg]) _) ?_
    intro imgOk _
    refine bind_isOk (@pyGet_isOk (.dict kvs) rfl "resources" (.dict [])) ?_
    intro resources hres
    replace hres := pyGet_val hres
    subst hres
    refine bind_isOk (pyGet_isOk hRes _ _) ?_
    intro limits _
    refine bind_isOk (pyGet_isOk hRes _ _) ?_
    intro requests _
    refine bind_isOk (probeCheck_isOk hLp _) ?_
    intro lpPair _
    refine bind_isOk (probeCheck_isOk hRp _) ?_
    intro rpPair _
    refine bind_isOk (@pyGet_isOk (.dict kvs) rfl "envFrom" .none) ?_
    intro ef hef
    replace hef := pyGet_val hef
    refine bind_isOk (envFromFlag_isOk hef (by rw [hef]; exact hEf)) ?_
    intro hasCM _
    refine bind_isOk (@pyGet_isOk (.dict kvs) rfl "env" .none) ?_
    intro ev hev
    replace hev := pyGet_val hev
    refine bind_isOk (envFlag_isOk hev (by rw [hev]; exact hEv)) ?_
    intro hasSec _
    rfl

theorem pyContains_dict_ok (kvs : List (String × Py)) (n : String) :
    pyContains (.dict kvs) n = .ok (kvs.lookup n).isSome := rfl

theorem dep_wf_ok {v : Py} (h : wf_deployment v = true) :
    (check_deployment v).isOk = true := by
  cases v with
  | none => rfl
  | bool b => simp [wf_deployment] at h
  | int n => simp [wf_deployment] at h
  | str s => simp [wf_deployment] at h
  | list xs => simp [wf_deployment] at h
  | dict kvs =>
    unfold check_deployment
    rw [if_neg (by simp [Py.isNone])]
    unfold wf_deployment at h
    rw [Bool.or_eq_true] at h
    refine bind_isOk (by rw [pyContains_dict_ok]; rfl) ?_
    intro hasErr hErr
    rw [pyContains_dict_ok] at hErr
    replace hErr := (Except.ok.inj hErr).symm
    subst hErr
    by_cases he : (kvs.lookup "error").isSome = true
    · rw [if_pos he]
      obtain ⟨e, hle⟩ := Option.isSome_iff_exists.mp he
      refine bind_isOk (by simp [pySub, hle, Except.isOk, Except.toBool]) ?_
      intro e2 _
      rfl
    · rcases h with h | h
      · exact absurd h he
      rw [if_neg he]
      rw [Bool.and_eq_true, Bool.and_eq_true, Bool.and_eq_true, Bool.and_eq_true] at h
      obtain ⟨⟨⟨⟨hSpc, hRep⟩, hTmpl⟩, hTsp⟩, hCont⟩ := h
      unfold containersOf at hCont
      refine bind_isOk (@pyGet_isOk (.dict kvs) rfl "spec" (.dict [])) ?_
      intro spc hspc
      replace hspc := pyGet_val hspc
      subst hspc
      refine bind_isOk (pyGet_isOk hSpc _ _) ?_
      intro replicas hrep
      replace hrep := pyGet_val hrep
      subst hrep
      refine bind_isOk (pyGe_isOk hRep 2) ?_
      intro repOk _
      refine bind_isOk (pyGet_isOk hSpc _ _) ?_
      intro tmpl htm
      replace htm := pyGet_val htm
      subst htm
      refine bind_isOk (pyGet_isOk hTmpl _ _) ?_
      intro tsp hts
      replace hts := pyGet_val hts
      subst hts
      refine bind_isOk (pyGet_isOk hTsp _ _) ?_
      intro containers hc
      replace hc := pyGet_val hc
      rw [← hc] at hCont
      by_cases hct : containers.truthy = true
      · rw [if_pos hct]
        rw [Bool.or_eq_true] at hCont
        rcases hCont with hC | hC
        · rw [hct] at hC
          simp at hC
        · cases containers with
          | list xs =>
            cases xs with
            | nil => simp [Py.truthy] at hct
            | cons c0 cs0 =>
              refine bind_isOk (show (pyIndex0 (.list (c0 :: cs0))).isOk = true from rfl) ?_
              intro container hcont0
              replace hcont0 : container = c0 := by
                simpa [pyIndex0] using hcont0.symm
              subst hcont0
              refine bind_isOk (dcc_wf_ok hC) ?_
              intro inner _
              rfl
          | none => simp at hC
          | bool b => simp at hC
          | int n => simp at hC
          | str s => simp at hC
          | dict d => simp at hC
      · rw [if_neg hct]
        rfl

theorem nodePortPair_isOk {kvs : List (String × Py)} {np : Py}
    (hnp : np = pyGetD (.dict kvs) "nodePort" .none) :
    (nodePortPair (.dict kvs) np).isOk = true := by
  subst hnp
  unfold nodePortPair
  by_cases ht : (pyGetD (.dict kvs) "nodePort" .none).truthy = true
  · rw [if_pos ht]
    exact bind_isOk (by rw [pySub_of_truthy ht]; rfl) (fun a _ => rfl)
  · rw [if_neg ht]
    rfl

theorem svc_wf_ok {v : Py} (h : wf_service v = true) :
    (check_service v).isOk = true := by
  cases v with
  | none => rfl
  | bool b => simp [wf_service] at h
  | int n => simp [wf_service] at h
  | str s => simp [wf_service] at h
  | list xs => simp [wf_service] at h
  | dict kvs =>
    unfold check_service
    rw [if_neg (by simp [Py.isNone])]
    unfold wf_service at h
    rw [Bool.or_eq_true] at h
    refine bind_isOk (by rw [pyContains_dict_ok]; rfl) ?_
    intro hasErr hErr
    rw [pyContains_dict_ok] at hErr
    replace hErr := (Except.ok.inj hErr).symm
    subst hErr
    by_cases he : (kvs.lookup "error").isSome = true
    · rw [if_pos he]
      obtain ⟨e, hle⟩ := Option.isSome_iff_exists.mp he
      refine bind_isOk (by simp [pySub, hle, Except.isOk, Except.toBool]) ?_
      intro e2 _
      rfl
    · rcases h with h | h
      · exact absurd h he
      rw [if_neg he]
      rw [Bool.and_eq_true, Bool.and_eq_true] at h
      obtain ⟨⟨hSpc, hSel⟩, hPorts⟩ := h
      unfold portsOf at hPorts
      refine bind_isOk (@pyGet_isOk (.dict kvs) rfl "spec" (.dict [])) ?_
      intro spc hspc
      replace hspc := pyGet_val hspc
      subst hspc
      refine bind_isOk (pyGet_isOk hSpc _ _) ?_
      intro svcType _
      refine bind_isOk (pyGet_isOk hSpc _ _) ?_
      intro selector hsel
      replace hsel := pyGet_val hsel
      subst hsel
      refine bind_isOk (pyGet_isOk hSel _ _) ?_
      intro app _
      refine bind_isOk (pyGet_isOk hSpc _ _) ?_
      intro ports hpv
      replace hpv := pyGet_val hpv
      rw [← hpv] at hPorts
      by_cases hpt : ports.truthy = true
      · rw [if_pos hpt]
        rw [Bool.or_eq_true] at hPorts
        rcases hPorts with hP | hP
        · rw [hpt] at hP
          simp at hP
        · cases ports with
          | list xs =>
            cases xs with
            | nil => simp [Py.truthy] at hpt
            | cons p0 ps0 =>
              refine bind_isOk (show (pyIndex0 (.list (p0 :: ps0))).isOk = true from rfl) ?_
              intro port hport
              replace hport : port = p0 := by
                simpa [pyIndex0] using hport.symm
              subst hport
              cases port with
              | dict pkvs =>
                refine bind_isOk (@pyGet_isOk (.dict pkvs) rfl "port" .none) ?_
                intro pp _
                refine bind_isOk (@pyGet_isOk (.dict pkvs) rfl "targetPort" .none) ?_
                intro tp _
                refine bind_isOk (@pyGet_isOk (.dict pkvs) rfl "nodePort" .none) ?_
                intro np hnp
                replace hnp := pyGet_val hnp
                refine bind_isOk (nodePortPair_isOk hnp) ?_
                intro npPair _
                rfl
              | none => simp [Py.isDict] at hP
              | bool b => simp [Py.isDict] at hP
              | int n => simp [Py.isDict] at hP
              | str s => simp [Py.isDict] at hP
              | list l => simp [Py.isDict] at hP
          | none => simp at hP
          | bool b => simp at hP
          | int n => simp at hP
          | str s => simp at hP
          | dict d => simp at hP
      · rw [if_neg hpt]
        rfl

theorem pyFilterKeys_isOk {data : Py}
    (h : (data.isDict || data.isStr || data.isList) = true) (ks : List String) :
    (pyFilterKeys data ks).isOk = true := by
  induction ks with
  | nil => rfl
  | cons k ks ih =>
    unfold pyFilterKeys
    refine bind_isOk (pyContains_isOk h k) ?_
    intro b _
    refine bind_isOk ih ?_
    intro rest _
    rfl

theorem cm_wf_ok {v : Py} (h : wf_configmap v = true) :
    (check_configmap v).isOk = true := by
  cases v with
  | none => rfl
  | bool b => simp [wf_configmap] at h
  | int n => simp [wf_configmap] at h
  | str s => simp [wf_configmap] at h
  | list xs => simp [wf_configmap] at h
  | dict kvs =>
    unfold check_configmap
    rw [if_neg (by simp [Py.isNone])]
    unfold wf_configmap at h
    rw [Bool.or_eq_true] at h
    refine bind_isOk (by rw [pyContains_dict_ok]; rfl) ?_
    intro hasErr hErr
    rw [pyContains_dict_ok] at hErr
    replace hErr := (Except.ok.inj hErr).symm
    subst hErr
    by_cases he : (kvs.lookup "error").isSome = true
    · rw [if_pos he]
      obtain ⟨e, hle⟩ := Option.isSome_iff_exists.mp he
      refine bind_isOk (by simp [pySub, hle, Except.isOk, Except.toBool]) ?_
      intro e2 _
      rfl
    · rcases h with h | h
      · exact absurd h he
      rw [if_neg he]
      rw [Bool.and_eq_true] at h
      obtain ⟨hMeta, hData⟩ := h
      refine bind_isOk (@pyGet_isOk (.dict kvs) rfl "metadata" (.dict [])) ?_
      intro meta hmeta
      replace hmeta := pyGet_val hmeta
      subst hmeta
      refine bind_isOk (pyGet_isOk hMeta _ _) ?_
      intro name _
      refine bind_isOk (@pyGet_isOk (.dict kvs) rfl "data" (.dict [])) ?_
      intro data hdata
      replace hdata := pyGet_val hdata
      subst hdata
      refine bind_isOk (pyContains_isOk hData _) ?_
      intro hasPl _
      refine bind_isOk (pyFilterKeys_isOk hData requiredKeys) ?_
      intro found _
      rfl

theorem sec_wf_ok {v : Py} (h : wf_secret v = true) :
    (check_secret v).isOk = true := by
  cases v with
  | none => rfl
  | bool b => simp [wf_secret] at h
  | int n => simp [wf_secret] at h
  | str s => simp [wf_secret] at h
  | list xs => simp [wf_secret] at h
  | dict kvs =>
    unfold check_secret
    rw [if_neg (by simp [Py.isNone])]
    unfold wf_secret at h
    rw [Bool.or_eq_true] at h
    refine bind_isOk (by rw [pyContains_dict_ok]; rfl) ?_
    intro hasErr hErr
    rw [pyContains_dict_ok] at hErr
    replace hErr := (Except.ok.inj hErr).symm
    subst hErr
    by_cases he : (kvs.lookup "error").isSome = true
    · rw [if_pos he]
      obtain ⟨e, hle⟩ := Option.isSome_iff_exists.mp he
      refine bind_isOk (by simp [pySub, hle, Except.isOk, Except.toBool]) ?_
      intro e2 _
      rfl
    · rcases h with h | h
      · exact absurd h he
      rw [if_neg he]
      rw [Bool.and_eq_true] at h
      obtain ⟨hMeta, hData⟩ := h
      refine bind_isOk (@pyGet_isOk (.dict kvs) rfl "metadata" (.dict [])) ?_
      intro meta hmeta
      replace hmeta := pyGet_val hmeta
      subst hmeta
      refine bind_isOk (pyGet_isOk hMeta _ _) ?_
      intro name _
      refine bind_isOk (@pyGet_isOk (.dict kvs) rfl "type" (.str "")) ?_
      intro st _
      refine bind_isOk (@pyGet_isOk (.dict kvs) rfl "data" (.dict [])) ?_
      intro data hdata
      replace hdata := pyGet_val hdata
      subst hdata
      refine bind_isOk (pyGet_isOk hData _ _) ?_
      intro apiKey _
      rfl

/-! ### Claim theorems -/

theorem isOk_exists {α : Type} {e : Except PyErr α} (h : e.isOk = true) :
    ∃ a, e = .ok a := by
  cases e with
  | error ex => simp [Except.isOk, Except.toBool] at h
  | ok a => exact ⟨a, rfl⟩

theorem ok_bind {α β : Type} (a : α) (f : α → Except PyErr β) :
    (Except.ok a >>= f) = f a := rfl

/-- Claim C5: applying each of the four evaluators to the Absent sentinel
(the `None` that `load_yaml_file` returns for a missing file) yields
exactly one check `("<Kind> file exists", false, "File not found")`, with
0 points and the fixed maximum of the kind (25/20/15/15). -/
theorem claim_C5 :
    load_yaml_file .missing = Py.none ∧
    check_deployment Py.none =
        .ok ([⟨"Deployment file exists", false, .str "File not found"⟩], 0, 25) ∧
    check_service Py.none =
        .ok ([⟨"Service file exists", false, .str "File not found"⟩], 0, 20) ∧
    check_configmap Py.none =
        .ok ([⟨"ConfigMap file exists", false, .str "File not found"⟩], 0, 15) ∧
    check_secret Py.none =
        .ok ([⟨"Secret file exists", false, .str "File not found"⟩], 0, 15) :=
  ⟨rfl, rfl, rfl, rfl, rfl⟩

/-- Claim C9: a file that exists but parses to the null document (e.g. an
empty file) is indistinguishable from a missing file: `load_yaml_file`
returns the same `None` sentinel for both, so every evaluator reports
`"<Kind> file exists"` false with detail `"File not found"` and 0 points. -/
theorem claim_C9 :
    load_yaml_file .missing = load_yaml_file (.doc Py.none) ∧
    load_yaml_file (.doc Py.none) = Py.none ∧
    check_deployment (load_yaml_file (.doc Py.none)) =
        .ok ([⟨"Deployment file exists", false, .str "File not found"⟩], 0, 25) ∧
    check_service (load_yaml_file (.doc Py.none)) =
        .ok ([⟨"Service file exists", false, .str "File not found"⟩], 0, 20) ∧
    check_configmap (load_yaml_file (.doc Py.none)) =
        .ok ([⟨"ConfigMap file exists", false, .str "File not found"⟩], 0, 15) ∧
    check_secret (load_yaml_file (.doc Py.none)) =
        .ok ([⟨"Secret file exists", false, .str "File not found"⟩], 0, 15) :=
  ⟨rfl, rfl, rfl, rfl, rfl, rfl⟩

/-- Claim C10: for every parsed mapping containing the top-level key
`"error"`, each of the four evaluators treats it as the Malformed
sentinel: it returns exactly one check `("Valid YAML", false, e)` with
`e` the value stored under `"error"`, and 0 points, whatever else the
mapping contains. -/
theorem claim_C10 : ∀ (kvs : List (String × Py)) (e : Py),
    kvs.lookup "error" = some e →
    check_deployment (.dict kvs) = .ok ([⟨"Valid YAML", false, e⟩], 0, 25) ∧
    check_service (.dict kvs) = .ok ([⟨"Valid YAML", false, e⟩], 0, 20) ∧
    check_configmap (.dict kvs) = .ok ([⟨"Valid YAML", false, e⟩], 0, 15) ∧
    check_secret (.dict kvs) = .ok ([⟨"Valid YAML", false, e⟩], 0, 15) := by
  intro kvs e h
  have hc : pyContains (.dict kvs) "error" = .ok true := by
    rw [pyContains_dict_ok, h]
    rfl
  have hsub : pySub (.dict kvs) "error" = .ok e := by
    simp [pySub, h]
  refine ⟨?_, ?_, ?_, ?_⟩
  · unfold check_deployment
    rw [if_neg (by simp [Py.isNone]), hc, ok_bind, if_pos rfl, hsub, ok_bind]
    rfl
  · unfold check_service
    rw [if_neg (by simp [Py.isNone]), hc, ok_bind, if_pos rfl, hsub, ok_bind]
    rfl
  · unfold check_configmap
    rw [if_neg (by simp [Py.isNone]), hc, ok_bind, if_pos rfl, hsub, ok_bind]
    rfl
  · unfold check_secret
    rw [if_neg (by simp [Py.isNone]), hc, ok_bind, if_pos rfl, hsub, ok_bind]
    rfl

/-- Witness for C10: a mapping that carries an `"error"` key while the
rest of its content would satisfy every ConfigMap rubric predicate is
still reduced to the single failing `Valid YAML` check by all four
evaluators. -/
theorem claim_C10_witness :
    check_deployment (.dict [("error", .str "boom"),
      ("metadata", .dict [("name", .str "k8s-challenge-config")]),
      ("data", .dict [("FLASK_ENV", .str "production"), ("LOG_LEVEL", .str "info"),
                      ("APP_NAME", .str "demo")])]) =
      .ok ([⟨"Valid YAML", false, .str "boom"⟩], 0, 25) ∧
    check_service (.dict [("error", .str "boom"),
      ("metadata", .dict [("name", .str "k8s-challenge-config")]),
      ("data", .dict [("FLASK_ENV", .str "production"), ("LOG_LEVEL", .str "info"),
                      ("APP_NAME", .str "demo")])]) =
      .ok ([⟨"Valid YAML", false, .str "boom"⟩], 0, 20) ∧
    check_configmap (.dict [("error", .str "boom"),
      ("metadata", .dict [("name", .str "k8s-challenge-config")]),
      ("data", .dict [("FLASK_ENV", .str "production"), ("LOG_LEVEL", .str "info"),
                      ("APP_NAME", .str "demo")])]) =
      .ok ([⟨"Valid YAML", false, .str "boom"⟩], 0, 15) ∧
    check_secret (.dict [("error", .str "boom"),
      ("metadata", .dict [("name", .str "k8s-challenge-config")]),
      ("data", .dict [("FLASK_ENV", .str "production"), ("LOG_LEVEL", .str "info"),
                      ("APP_NAME", .str "demo")])]) =
      .ok ([⟨"Valid YAML", false, .str "boom"⟩], 0, 15) :=
  claim_C10 [("error", .str "boom"),
      ("metadata", .dict [("name", .str "k8s-challenge-config")]),
      ("data", .dict [("FLASK_ENV", .str "production"), ("LOG_LEVEL", .str "info"),
                      ("APP_NAME", .str "demo")])] (.str "boom") rfl

/-- Claim C1 (amended): the claim as stated — every input, including
non-mapping documents and wrongly typed nested fields, evaluates without
raising — is false (see the counterexample).  What holds is: each
evaluator returns normally on `None`, on any mapping with an `"error"`
key, and on any mapping whose accessed nested fields, where present,
have the structurally expected types (the `wf_*` predicates); there,
absent fields default to empty/zero and merely fail their predicate. -/
theorem claim_C1 :
    (∀ v : Py, wf_deployment v = true → (check_deployment v).isOk = true) ∧
    (∀ v : Py, wf_service v = true → (check_service v).isOk = true) ∧
    (∀ v : Py, wf_configmap v = true → (check_configmap v).isOk = true) ∧
    (∀ v : Py, wf_secret v = true → (check_secret v).isOk = true) :=
  ⟨fun _ => dep_wf_ok, fun _ => svc_wf_ok, fun _ => cm_wf_ok, fun _ => sec_wf_ok⟩

/-- Counterexample for C1: the evaluators do raise on inputs the claim
says they must handle — a string at `spec.replicas` hits `str >= int`
(`TypeError`), a non-mapping document hits `"error" in 3` (`TypeError`),
and a string at `spec` hits `str.get` (`AttributeError`). -/
theorem claim_C1_counterexample :
    check_deployment (.dict [("spec", .dict [("replicas", .str "three")])]) =
      .error .typeError ∧
    check_deployment (.int 3) = .error .typeError ∧
    check_service (.dict [("spec", .str "oops")]) = .error .attrError :=
  ⟨rfl, rfl, rfl⟩

/-- Witness for C1: the empty mapping is well-formed for all four
evaluators and every evaluator returns normally on it. -/
theorem claim_C1_witness :
    (check_deployment (Py.dict [])).isOk = true ∧
    (check_service (Py.dict [])).isOk = true ∧
    (check_configmap (Py.dict [])).isOk = true ∧
    (check_secret (Py.dict [])).isOk = true :=
  ⟨claim_C1.1 (Py.dict []) (by decide), claim_C1.2.1 (Py.dict []) (by decide),
   claim_C1.2.2.1 (Py.dict []) (by decide), claim_C1.2.2.2 (Py.dict []) (by decide)⟩

/-- Claim C4: whenever an evaluator returns an outcome, `maxPoints` is
the fixed constant of the kind (25/20/15/15), `0 ≤ points ≤ maxPoints`, and
`points` is the sum of the point values of exactly the passed checks —
plus, for the ConfigMap evaluator, the silent placeholder-absence points
and the `3 × found` partial-credit formula (`cmExtra`). -/
theorem claim_C4 :
    (∀ (v : Py) (cs : List CheckResult) (p m : Int),
        check_deployment v = .ok (cs, p, m) →
        m = 25 ∧ 0 ≤ p ∧ p ≤ m ∧ p = sumPassed depVal cs) ∧
    (∀ (v : Py) (cs : List CheckResult) (p m : Int),
        check_service v = .ok (cs, p, m) →
        m = 20 ∧ 0 ≤ p ∧ p ≤ m ∧ p = sumPassed svcVal cs) ∧
    (∀ (v : Py) (cs : List CheckResult) (p m : Int),
        check_configmap v = .ok (cs, p, m) →
        m = 15 ∧ 0 ≤ p ∧ p ≤ m ∧ p = sumPassed cmVal cs + cmExtra v) ∧
    (∀ (v : Py) (cs : List CheckResult) (p m : Int),
        check_secret v = .ok (cs, p, m) →
        m = 15 ∧ 0 ≤ p ∧ p ≤ m ∧ p = sumPassed secVal cs) := by
  refine ⟨fun v cs p m h => ?_, fun v cs p m h => ?_,
          fun v cs p m h => ?_, fun v cs p m h => ?_⟩
  · obtain ⟨h1, h2, h3, h4⟩ := dep_char h
    exact ⟨h1, h3, by rw [h1]; exact h4, h2⟩
  · obtain ⟨h1, h2, h3, h4⟩ := svc_char h
    exact ⟨h1, h3, by rw [h1]; exact h4, h2⟩
  · obtain ⟨h1, h2, h3, h4⟩ := cm_char h
    exact ⟨h1, h3, by rw [h1]; exact h4, h2⟩
  · obtain ⟨h1, h2, h3, h4⟩ := sec_char h
    exact ⟨h1, h3, by rw [h1]; exact h4, h2⟩

/-- Witness for C4: the invariants instantiated at the Absent sentinel
for all four evaluators. -/
theorem claim_C4_witness :
    ((25 : Int) = 25 ∧ (0 : Int) ≤ 0 ∧ (0 : Int) ≤ 25 ∧
      (0 : Int) = sumPassed depVal [⟨"Deployment file exists", false, .str "File not found"⟩]) ∧
    ((20 : Int) = 20 ∧ (0 : Int) ≤ 0 ∧ (0 : Int) ≤ 20 ∧
      (0 : Int) = sumPassed svcVal [⟨"Service file exists", false, .str "File not found"⟩]) ∧
    ((15 : Int) = 15 ∧ (0 : Int) ≤ 0 ∧ (0 : Int) ≤ 15 ∧
      (0 : Int) = sumPassed cmVal [⟨"ConfigMap file exists", false, .str "File not found"⟩] +
        cmExtra Py.none) ∧
    ((15 : Int) = 15 ∧ (0 : Int) ≤ 0 ∧ (0 : Int) ≤ 15 ∧
      (0 : Int) = sumPassed secVal [⟨"Secret file exists", false, .str "File not found"⟩]) :=
  ⟨claim_C4.1 Py.none _ 0 25 rfl, claim_C4.2.1 Py.none _ 0 20 rfl,
   claim_C4.2.2.1 Py.none _ 0 15 rfl, claim_C4.2.2.2 Py.none _ 0 15 rfl⟩

/-- Claim C2 (amended): the claim as stated — a well-formed Deployment
manifest with empty/absent containers yields exactly one check and 0
points — is false (see the counterexample): the replicas check is always
emitted first.  What holds is: such a manifest yields exactly two checks,
the replicas check followed by
`("Container defined", false, "No containers found")`, and the points are
the replicas points alone (5 when `spec.replicas >= 2`, else 0). -/
theorem claim_C2 : ∀ kvs : List (String × Py),
    wf_deployment (.dict kvs) = true →
    kvs.lookup "error" = none →
    (containersOf (.dict kvs)).truthy = false →
    ∃ (c1 : CheckResult) (p1 : Int),
      check_deployment (.dict kvs) =
        .ok ([c1, ⟨"Container defined", false, .str "No containers found"⟩], p1, 25) ∧
      c1.name = "Replicas >= 2" ∧
      c1.passed = replicasPass (.dict kvs) ∧
      p1 = (if c1.passed then 5 else 0) := by
  intro kvs hwf herr hct
  unfold wf_deployment at hwf
  rw [Bool.or_eq_true] at hwf
  rcases hwf with hwf | hwf
  · rw [herr] at hwf
    simp at hwf
  rw [Bool.and_eq_true, Bool.and_eq_true, Bool.and_eq_true, Bool.and_eq_true] at hwf
  obtain ⟨⟨⟨⟨hSpc, hRep⟩, hTmpl⟩, hTsp⟩, -⟩ := hwf
  obtain ⟨repOk, hge⟩ := isOk_exists (pyGe_isOk hRep 2)
  have hcon : pyContains (Py.dict kvs) "error" = .ok false := by
    rw [pyContains_dict_ok, herr]
    rfl
  have hrp : replicasPass (.dict kvs) = repOk := by
    unfold replicasPass replicasOf
    rw [hge]
    rfl
  unfold check_deployment
  rw [if_neg (by simp [Py.isNone]), hcon, ok_bind, if_neg (by simp)]
  rw [show pyGet (Py.dict kvs) "spec" (Py.dict []) =
        .ok (pyGetD (Py.dict kvs) "spec" (Py.dict [])) from rfl, ok_bind]
  rw [pyGet_dict hSpc, ok_bind, hge, ok_bind]
  rw [pyGet_dict hSpc, ok_bind, pyGet_dict hTmpl, ok_bind, pyGet_dict hTsp, ok_bind]
  rw [if_neg (by unfold containersOf at hct; rw [hct]; simp)]
  refine ⟨_, _, rfl, by cases repOk <;> rfl, ?_, (replicasPair_scored _ repOk).1⟩
  rw [hrp]
  cases repOk <;> rfl

/-- Counterexample for C2: the manifest `{"spec": {"replicas": 5}}` has
no containers, yet `check_deployment` returns two checks — the passing
replicas check first — and 5 points, refuting both "exactly one check"
and "points == 0". -/
theorem claim_C2_counterexample :
    check_deployment (.dict [("spec", .dict [("replicas", .int 5)])]) =
      .ok ([⟨"Replicas >= 2", true, .str "Found 5 replicas"⟩,
            ⟨"Container defined", false, .str "No containers found"⟩], 5, 25) ∧
    [⟨"Replicas >= 2", true, .str "Found 5 replicas"⟩,
     (⟨"Container defined", false, .str "No containers found"⟩ : CheckResult)].length ≠ 1 ∧
    (5 : Int) ≠ 0 :=
  ⟨rfl, by decide, by decide⟩

/-- Witness for C2: the amended statement instantiated at
`{"spec": {"replicas": 3}}`. -/
theorem claim_C2_witness :
    ∃ (c1 : CheckResult) (p1 : Int),
      check_deployment (.dict [("spec", .dict [("replicas", .int 3)])]) =
        .ok ([c1, ⟨"Container defined", false, .str "No containers found"⟩], p1, 25) ∧
      c1.name = "Replicas >= 2" ∧
      c1.passed = replicasPass (.dict [("spec", .dict [("replicas", .int 3)])]) ∧
      p1 = (if c1.passed then 5 else 0) :=
  claim_C2 [("spec", .dict [("replicas", .int 3)])] (by decide) rfl (by decide)

theorem cmNamePair_pts (n : Py) (b : Bool) :
    (cmNamePair n b).2 = (if b then 3 else 0) := by
  cases b <;> rfl

theorem keysPair_pts (found : List String) :
    (keysPair found).2 =
      (if found.length == requiredKeys.length then 10 else 3 * (found.length : Int)) := by
  unfold keysPair
  split <;> rfl

/-- Claim C3: on a well-formed ConfigMap mapping, `check_configmap`
awards `(3 if the name is k8s-challenge-config) + (2 if no PLACEHOLDER
key) + (10 if all of FLASK_ENV/LOG_LEVEL/APP_NAME are in data, else 3
points per key found)`; when not all keys are present the `All config
keys` check fails listing the missing keys, and when all are present it
passes (10 points instead of partial credit). -/
theorem claim_C3 : ∀ kvs : List (String × Py),
    kvs.lookup "error" = none →
    (pyGetD (.dict kvs) "metadata" (.dict [])).isDict = true →
    (pyGetD (.dict kvs) "data" (.dict [])).isDict = true →
    ∃ cs : List CheckResult,
      check_configmap (.dict kvs) =
        .ok (cs,
          (if pyIsStr (pyGetD (pyGetD (.dict kvs) "metadata" (.dict [])) "name" (.str ""))
              "k8s-challenge-config" then 3 else 0) +
          (if (pyContains (pyGetD (.dict kvs) "data" (.dict []))
                "PLACEHOLDER").toOption.getD true then 0 else 2) +
          (if (cmFound (pyGetD (.dict kvs) "data" (.dict []))).length == requiredKeys.length
           then 10
           else 3 * ((cmFound (pyGetD (.dict kvs) "data" (.dict []))).length : Int)),
          15) ∧
      (((cmFound (pyGetD (.dict kvs) "data" (.dict []))).length == requiredKeys.length)
          = false →
        (⟨"All config keys", false,
          .str ("Missing: " ++ String.intercalate ", "
            (requiredKeys.filter
              (fun k => !(cmFound (pyGetD (.dict kvs) "data" (.dict []))).contains k)))⟩ :
          CheckResult) ∈ cs) ∧
      (((cmFound (pyGetD (.dict kvs) "data" (.dict []))).length == requiredKeys.length)
          = true →
        (⟨"All config keys", true,
          .str (String.intercalate ", " (cmFound (pyGetD (.dict kvs) "data" (.dict []))))⟩ :
          CheckResult) ∈ cs) := by
  intro kvs herr hMeta hData
  have hcon : pyContains (Py.dict kvs) "error" = .ok false := by
    rw [pyContains_dict_ok, herr]
    rfl
  obtain ⟨plb, hplb⟩ := isOk_exists
    (@pyContains_isOk (pyGetD (.dict kvs) "data" (.dict [])) (by simp [hData]) "PLACEHOLDER")
  obtain ⟨found, hfound⟩ := isOk_exists
    (@pyFilterKeys_isOk (pyGetD (.dict kvs) "data" (.dict [])) (by simp [hData]) requiredKeys)
  have hfeq : found = cmFound (pyGetD (.dict kvs) "data" (.dict [])) := by
    rw [cmFound]
    exact pyFilterKeys_eq hfound
  have hpleq : (pyContains (pyGetD (.dict kvs) "data" (.dict []))
      "PLACEHOLDER").toOption.getD true = plb := by
    rw [hplb]
    rfl
  unfold check_configmap
  rw [if_neg (by simp [Py.isNone]), hcon, ok_bind, if_neg (by simp)]
  rw [show pyGet (Py.dict kvs) "metadata" (Py.dict []) =
        .ok (pyGetD (Py.dict kvs) "metadata" (Py.dict [])) from rfl, ok_bind]
  rw [pyGet_dict hMeta, ok_bind]
  rw [show pyGet (Py.dict kvs) "data" (Py.dict []) =
        .ok (pyGetD (Py.dict kvs) "data" (Py.dict [])) from rfl, ok_bind]
  rw [hplb, ok_bind, hfound, ok_bind]
  refine ⟨(cmNamePair (pyGetD (pyGetD (.dict kvs) "metadata" (.dict [])) "name" (.str ""))
        (pyIsStr (pyGetD (pyGetD (.dict kvs) "metadata" (.dict [])) "name" (.str ""))
          "k8s-challenge-config")).1 ::
      (if plb then [⟨"Remove placeholder", false, .str "PLACEHOLDER key still present"⟩]
       else []) ++ [(keysPair found).1], ?_, ?_, ?_⟩
  · rw [← hfeq,
        show ((Except.ok plb : Except PyErr Bool).toOption.getD true) = plb from rfl,
        ← cmNamePair_pts (pyGetD (pyGetD (.dict kvs) "metadata" (.dict [])) "name" (.str ""))
          (pyIsStr (pyGetD (pyGetD (.dict kvs) "metadata" (.dict [])) "name" (.str ""))
            "k8s-challenge-config"),
        ← keysPair_pts found]
    rfl
  · intro hlenF
    rw [← hfeq] at hlenF
    rw [← hfeq]
    have hk : keysPair found =
        (⟨"All config keys", false,
          .str ("Missing: " ++ String.intercalate ", "
            (requiredKeys.filter (fun k => !found.contains k)))⟩,
         3 * (found.length : Int)) := by
      unfold keysPair
      rw [if_neg (by simp [hlenF])]
    rw [hk]
    simp
  · intro hlenT
    rw [← hfeq] at hlenT
    rw [← hfeq]
    have hk : keysPair found =
        (⟨"All config keys", true, .str (String.intercalate ", " found)⟩, 10) := by
      unfold keysPair
      rw [if_pos hlenT]
    rw [hk]
    simp

/-- Witness for C3: the example given in the spec — data has FLASK_ENV and
LOG_LEVEL, no APP_NAME, no PLACEHOLDER, and the correct name — yields
the partial-credit formula 3 + 2 + 3·2 = 11 and the failing keys check
listing APP_NAME. -/
theorem claim_C3_witness :
    ∃ cs : List CheckResult,
      check_configmap (.dict [("metadata", .dict [("name", .str "k8s-challenge-config")]),
          ("data", .dict [("FLASK_ENV", .str "production"), ("LOG_LEVEL", .str "info")])]) =
        .ok (cs,
          (if pyIsStr (pyGetD (pyGetD (.dict [("metadata",
                .dict [("name", .str "k8s-challenge-config")]),
              ("data", .dict [("FLASK_ENV", .str "production"),
                ("LOG_LEVEL", .str "info")])]) "metadata" (.dict [])) "name" (.str ""))
              "k8s-challenge-config" then 3 else 0) +
          (if (pyContains (pyGetD (.dict [("metadata",
                .dict [("name", .str "k8s-challenge-config")]),
              ("data", .dict [("FLASK_ENV", .str "production"),
                ("LOG_LEVEL", .str "info")])]) "data" (.dict []))
                "PLACEHOLDER").toOption.getD true then 0 else 2) +
          (if (cmFound (pyGetD (.dict [("metadata",
                .dict [("name", .str "k8s-challenge-config")]),
              ("data", .dict [("FLASK_ENV", .str "production"),
                ("LOG_LEVEL", .str "info")])]) "data" (.dict []))).length ==
              requiredKeys.length
           then 10
           else 3 * ((cmFound (pyGetD (.dict [("metadata",
                .dict [("name", .str "k8s-challenge-config")]),
              ("data", .dict [("FLASK_ENV", .str "production"),
                ("LOG_LEVEL", .str "info")])]) "data" (.dict []))).length : Int)),
          15) ∧
      (((cmFound (pyGetD (.dict [("metadata",
            .dict [("name", .str "k8s-challenge-config")]),
          ("data", .dict [("FLASK_ENV", .str "production"),
            ("LOG_LEVEL", .str "info")])]) "data" (.dict []))).length ==
          requiredKeys.length) = false →
        (⟨"All config keys", false,
          .str ("Missing: " ++ String.intercalate ", "
            (requiredKeys.filter
              (fun k => !(cmFound (pyGetD (.dict [("metadata",
                  .dict [("name", .str "k8s-challenge-config")]),
                ("data", .dict [("FLASK_ENV", .str "production"),
                  ("LOG_LEVEL", .str "info")])]) "data" (.dict []))).contains k)))⟩ :
          CheckResult) ∈ cs) ∧
      (((cmFound (pyGetD (.dict [("metadata",
            .dict [("name", .str "k8s-challenge-config")]),
          ("data", .dict [("FLASK_ENV", .str "production"),
            ("LOG_LEVEL", .str "info")])]) "data" (.dict []))).length ==
          requiredKeys.length) = true →
        (⟨"All config keys", true,
          .str (String.intercalate ", " (cmFound (pyGetD (.dict [("metadata",
              .dict [("name", .str "k8s-challenge-config")]),
            ("data", .dict [("FLASK_ENV", .str "production"),
              ("LOG_LEVEL", .str "info")])]) "data" (.dict []))))⟩ :
          CheckResult) ∈ cs) :=
  claim_C3 [("metadata", .dict [("name", .str "k8s-challenge-config")]),
            ("data", .dict [("FLASK_ENV", .str "production"), ("LOG_LEVEL", .str "info")])]
    rfl rfl rfl

theorem apiKeyPair_spec (k : String) :
    apiKeyPair (.str k) =
      (specApiKeyCheck k, if (specApiKeyCheck k).passed then 10 else 0) := by
  unfold apiKeyPair specApiKeyCheck
  by_cases h0 : k = ""
  · subst h0
    rfl
  · by_cases h1 : k = "REPLACE-WITH-BASE64-ENCODED-VALUE"
    · subst h1
      rfl
    · have ht : (Py.str k).truthy = true := by
        simp only [Py.truthy, Bool.not_eq_true']
        rw [Bool.eq_false_iff]
        intro hc
        exact h0 ((String.isEmpty_iff k).mp hc)
      have hps : pyIsStr (.str k) "REPLACE-WITH-BASE64-ENCODED-VALUE" = false := by
        simp only [pyIsStr]
        exact beq_false_of_ne h1
      rw [if_pos (by rw [ht, hps]; rfl),
          if_neg (by simp [beq_false_of_ne h0, beq_false_of_ne h1])]
      cases hB : b64DecodedChars (.str k) with
      | none => rfl
      | some cs =>
        cases cs with
        | nil => rfl
        | cons c rest => simp

/-- Claim C6: on a well-formed Secret mapping whose `data.api-key`
(defaulted to `""`) is the string `k`, the third check of `check_secret`
is exactly the four-way case split the spec describes
(`specApiKeyCheck k`): absent/empty/placeholder → "Not set or still
placeholder" with no decode, otherwise base64+utf-8 decoding with
pass (10 pts) on non-empty text, "Empty value" on empty text and
"Invalid base64 encoding" on a decode error; it contributes 10 points
exactly when it passes. -/
theorem claim_C6 : ∀ (kvs : List (String × Py)) (k : String),
    kvs.lookup "error" = none →
    (pyGetD (.dict kvs) "metadata" (.dict [])).isDict = true →
    (pyGetD (.dict kvs) "data" (.dict [])).isDict = true →
    pyGetD (pyGetD (.dict kvs) "data" (.dict [])) "api-key" (.str "") = .str k →
    ∃ (c1 c2 : CheckResult) (p12 : Int),
      check_secret (.dict kvs) =
        .ok ([c1, c2, specApiKeyCheck k],
          p12 + (if (specApiKeyCheck k).passed then 10 else 0), 15) ∧
      c1.name = "Correct name" ∧ c2.name = "Type Opaque" := by
  intro kvs k herr hMeta hData hKey
  have hcon : pyContains (Py.dict kvs) "error" = .ok false := by
    rw [pyContains_dict_ok, herr]
    rfl
  unfold check_secret
  rw [if_neg (by simp [Py.isNone]), hcon, ok_bind, if_neg (by simp)]
  rw [show pyGet (Py.dict kvs) "metadata" (Py.dict []) =
        .ok (pyGetD (Py.dict kvs) "metadata" (Py.dict [])) from rfl, ok_bind]
  rw [pyGet_dict hMeta, ok_bind]
  rw [show pyGet (Py.dict kvs) "type" (Py.str "") =
        .ok (pyGetD (Py.dict kvs) "type" (Py.str "")) from rfl, ok_bind]
  rw [show pyGet (Py.dict kvs) "data" (Py.dict []) =
        .ok (pyGetD (Py.dict kvs) "data" (Py.dict [])) from rfl, ok_bind]
  rw [pyGet_dict hData, ok_bind, hKey, apiKeyPair_spec]
  exact ⟨_, _, _, rfl, by
    cases hb : pyIsStr (pyGetD (pyGetD (.dict kvs) "metadata" (.dict [])) "name" (.str ""))
      "k8s-challenge-secrets" <;> rfl, by
    cases hb : pyIsStr (pyGetD (Py.dict kvs) "type" (Py.str "")) "Opaque" <;> rfl⟩

/-- Witness for C6: the example given in the spec — `data.api-key` equals
`"not-valid-base64!!!"` — hits the decode-failure branch, and
`specApiKeyCheck` evaluates there to the failing check with detail
`"Invalid base64 encoding"`. -/
theorem claim_C6_witness :
    (∃ (c1 c2 : CheckResult) (p12 : Int),
      check_secret (.dict [("metadata", .dict [("name", .str "k8s-challenge-secrets")]),
          ("type", .str "Opaque"),
          ("data", .dict [("api-key", .str "not-valid-base64!!!")])]) =
        .ok ([c1, c2, specApiKeyCheck "not-valid-base64!!!"],
          p12 + (if (specApiKeyCheck "not-valid-base64!!!").passed then 10 else 0), 15) ∧
      c1.name = "Correct name" ∧ c2.name = "Type Opaque") ∧
    specApiKeyCheck "not-valid-base64!!!" =
      ⟨"api-key (base64)", false, .str "Invalid base64 encoding"⟩ :=
  ⟨claim_C6 [("metadata", .dict [("name", .str "k8s-challenge-secrets")]),
      ("type", .str "Opaque"),
      ("data", .dict [("api-key", .str "not-valid-base64!!!")])]
      "not-valid-base64!!!" rfl rfl rfl rfl, rfl⟩

theorem nodePortPair_char {pkvs : List (String × Py)} {pr : CheckResult × Int}
    (h : nodePortPair (.dict pkvs) (pyGetD (.dict pkvs) "nodePort" .none) = .ok pr) :
    pr.1.name = "NodePort set" ∧
    pr.1.passed = (pyGetD (.dict pkvs) "nodePort" .none).truthy ∧
    pr.2 = (if pr.1.passed then 5 else 0) := by
  unfold nodePortPair at h
  split at h
  · rename_i ht
    obtain ⟨npv, -, h⟩ := bind_ok h
    replace h := pure_ok h
    subst h
    exact ⟨rfl, ht.symm, rfl⟩
  · rename_i ht
    replace h := pure_ok h
    subst h
    rw [Bool.not_eq_true] at ht
    exact ⟨rfl, ht.symm, rfl⟩

theorem portMappingPair_name (p tp : Py) (b : Bool) :
    (portMappingPair p tp b).1.name = "Port mapping" ∧
    (portMappingPair p tp b).1.passed = b ∧
    (b = false →
      (portMappingPair p tp b).1.detail =
        .str ("Expected 80→5000, got " ++ pyStr p ++ "→" ++ pyStr tp)) := by
  cases b <;> exact ⟨rfl, rfl, fun h => by first | rfl | exact absurd h (by simp)⟩

/-- Claim C7: on a well-formed Service mapping whose first port entry is
the mapping `pd`, the port-mapping check passes (5 pts) exactly when
`pd.port == 80` and `pd.targetPort == 5000`, reporting the observed
`port→targetPort` on failure, and the nodePort check passes (5 pts)
exactly when `pd.nodePort` is truthy; the two checks together contribute
`5·pm + 5·np` points. -/
theorem claim_C7 : ∀ (kvs pkvs : List (String × Py)) (rest : List Py),
    kvs.lookup "error" = none →
    (pyGetD (.dict kvs) "spec" (.dict [])).isDict = true →
    (pyGetD (pyGetD (.dict kvs) "spec" (.dict [])) "selector" (.dict [])).isDict = true →
    portsOf (.dict kvs) = .list (.dict pkvs :: rest) →
    ∃ (c1 c2 c3 c4 : CheckResult) (p12 : Int),
      check_service (.dict kvs) =
        .ok ([c1, c2, c3, c4],
          p12 + (if c3.passed then 5 else 0) + (if c4.passed then 5 else 0), 20) ∧
      c3.name = "Port mapping" ∧
      c3.passed = (pyIsInt (pyGetD (.dict pkvs) "port" .none) 80 &&
                   pyIsInt (pyGetD (.dict pkvs) "targetPort" .none) 5000) ∧
      (c3.passed = false →
        c3.detail = .str ("Expected 80→5000, got " ++
          pyStr (pyGetD (.dict pkvs) "port" .none) ++ "→" ++
          pyStr (pyGetD (.dict pkvs) "targetPort" .none))) ∧
      c4.name = "NodePort set" ∧
      c4.passed = (pyGetD (.dict pkvs) "nodePort" .none).truthy := by
  intro kvs pkvs rest herr hSpc hSel hPorts
  have hcon : pyContains (Py.dict kvs) "error" = .ok false := by
    rw [pyContains_dict_ok, herr]
    rfl
  obtain ⟨npPair, hnp⟩ := isOk_exists
    (@nodePortPair_isOk pkvs (pyGetD (.dict pkvs) "nodePort" .none) rfl)
  obtain ⟨hnpName, hnpPassed, hnpPts⟩ := nodePortPair_char hnp
  unfold check_service
  rw [if_neg (by simp [Py.isNone]), hcon, ok_bind, if_neg (by simp)]
  rw [show pyGet (Py.dict kvs) "spec" (Py.dict []) =
        .ok (pyGetD (Py.dict kvs) "spec" (Py.dict [])) from rfl, ok_bind]
  rw [pyGet_dict hSpc, ok_bind, pyGet_dict hSpc, ok_bind, pyGet_dict hSel, ok_bind,
      pyGet_dict hSpc, ok_bind]
  unfold portsOf at hPorts
  rw [hPorts, if_pos (by simp [Py.truthy]),
      show pyIndex0 (Py.list (Py.dict pkvs :: rest)) = .ok (.dict pkvs) from rfl, ok_bind]
  rw [show pyGet (Py.dict pkvs) "port" Py.none =
        .ok (pyGetD (Py.dict pkvs) "port" Py.none) from rfl, ok_bind]
  rw [show pyGet (Py.dict pkvs) "targetPort" Py.none =
        .ok (pyGetD (Py.dict pkvs) "targetPort" Py.none) from rfl, ok_bind]
  rw [show pyGet (Py.dict pkvs) "nodePort" Py.none =
        .ok (pyGetD (Py.dict pkvs) "nodePort" Py.none) from rfl, ok_bind]
  rw [hnp, ok_bind]
  obtain ⟨hpmName, hpmPassed, hpmDetail⟩ :=
    portMappingPair_name (pyGetD (.dict pkvs) "port" .none)
      (pyGetD (.dict pkvs) "targetPort" .none)
      (pyIsInt (pyGetD (.dict pkvs) "port" .none) 80 &&
       pyIsInt (pyGetD (.dict pkvs) "targetPort" .none) 5000)
  refine ⟨(svcTypePair (pyGetD (pyGetD (Py.dict kvs) "spec" (Py.dict [])) "type"
        (Py.str "ClusterIP"))
      (pyIsStr (pyGetD (pyGetD (Py.dict kvs) "spec" (Py.dict [])) "type" (Py.str "ClusterIP"))
        "NodePort")).1,
    (selectorPair (pyGetD (pyGetD (Py.dict kvs) "spec" (Py.dict [])) "selector" (Py.dict []))
      (pyIsStr (pyGetD (pyGetD (pyGetD (Py.dict kvs) "spec" (Py.dict [])) "selector"
        (Py.dict [])) "app" Py.none) "k8s-challenge")).1,
    (portMappingPair (pyGetD (Py.dict pkvs) "port" Py.none)
      (pyGetD (Py.dict pkvs) "targetPort" Py.none)
      (pyIsInt (pyGetD (Py.dict pkvs) "port" Py.none) 80 &&
       pyIsInt (pyGetD (Py.dict pkvs) "targetPort" Py.none) 5000)).1,
    npPair.1,
    (svcTypePair (pyGetD (pyGetD (Py.dict kvs) "spec" (Py.dict [])) "type"
        (Py.str "ClusterIP"))
      (pyIsStr (pyGetD (pyGetD (Py.dict kvs) "spec" (Py.dict [])) "type" (Py.str "ClusterIP"))
        "NodePort")).2 +
    (selectorPair (pyGetD (pyGetD (Py.dict kvs) "spec" (Py.dict [])) "selector" (Py.dict []))
      (pyIsStr (pyGetD (pyGetD (pyGetD (Py.dict kvs) "spec" (Py.dict [])) "selector"
        (Py.dict [])) "app" Py.none) "k8s-challenge")).2,
    ?_, hpmName, hpmPassed, ?_, hnpName, hnpPassed⟩
  · rw [show (portMappingPair (pyGetD (.dict pkvs) "port" .none)
          (pyGetD (.dict pkvs) "targetPort" .none)
          (pyIsInt (pyGetD (.dict pkvs) "port" .none) 80 &&
           pyIsInt (pyGetD (.dict pkvs) "targetPort" .none) 5000)).2 =
        (if (portMappingPair (pyGetD (.dict pkvs) "port" .none)
          (pyGetD (.dict pkvs) "targetPort" .none)
          (pyIsInt (pyGetD (.dict pkvs) "port" .none) 80 &&
           pyIsInt (pyGetD (.dict pkvs) "targetPort" .none) 5000)).1.passed then 5 else 0)
        from (portMappingPair_scored _ _ _).1, ← hnpPts]
    rfl
  · intro hf
    rw [hpmPassed] at hf
    exact hpmDetail hf

/-- Witness for C7: the example given in the spec — first port entry
`{port: 8080, targetPort: 9090}` with no nodePort — fails the
port-mapping check with detail "Expected 80→5000, got 8080→9090", fails
the nodePort check, and the two port checks contribute 0 of 10. -/
theorem claim_C7_witness :
    ∃ (c1 c2 c3 c4 : CheckResult) (p12 : Int),
      check_service (.dict [("spec", .dict [("type", .str "NodePort"),
          ("selector", .dict [("app", .str "k8s-challenge")]),
          ("ports", .list [.dict [("port", .int 8080), ("targetPort", .int 9090)]])])]) =
        .ok ([c1, c2, c3, c4],
          p12 + (if c3.passed then 5 else 0) + (if c4.passed then 5 else 0), 20) ∧
      c3.name = "Port mapping" ∧
      c3.passed = (pyIsInt (pyGetD (.dict [("port", .int 8080), ("targetPort", .int 9090)])
                    "port" .none) 80 &&
                   pyIsInt (pyGetD (.dict [("port", .int 8080), ("targetPort", .int 9090)])
                    "targetPort" .none) 5000) ∧
      (c3.passed = false →
        c3.detail = .str ("Expected 80→5000, got " ++
          pyStr (pyGetD (.dict [("port", .int 8080), ("targetPort", .int 9090)])
            "port" .none) ++ "→" ++
          pyStr (pyGetD (.dict [("port", .int 8080), ("targetPort", .int 9090)])
            "targetPort" .none))) ∧
      c4.name = "NodePort set" ∧
      c4.passed = (pyGetD (.dict [("port", .int 8080), ("targetPort", .int 9090)])
        "nodePort" .none).truthy :=
  claim_C7 [("spec", .dict [("type", .str "NodePort"),
      ("selector", .dict [("app", .str "k8s-challenge")]),
      ("ports", .list [.dict [("port", .int 8080), ("targetPort", .int 9090)]])])]
    [("port", .int 8080), ("targetPort", .int 9090)] [] rfl rfl rfl rfl

set_option maxRecDepth 10000 in
theorem floatPct_range : (List.range 76).all
    (fun q => floatPct q 75 == 100 * q / 75) = true := by decide

theorem floatPct_eq_floor {p : Nat} (hp : p ≤ 75) : floatPct p 75 = 100 * p / 75 := by
  have hall := floatPct_range
  rw [List.all_eq_true] at hall
  have hm := hall p (by rw [List.mem_range]; omega)
  simpa using hm

/-- Claim C8: whenever the aggregator returns a report, the maximum is
the fixed 75 = 25+20+15+15 and the reported percentage — computed by the
script as `int((total_points / max_total) * 100)` in binary64 floating
point — equals the exact `floor(100 * totalPoints / 75)`. -/
theorem claim_C8 : ∀ (d s c k : FileInput) (r : RunReport),
    check_all_manifests d s c k = .ok r →
    r.max_total = 75 ∧ 0 ≤ r.total_points ∧ r.total_points ≤ 75 ∧
      r.progress_pct = 100 * r.total_points / 75 := by
  intro d s c k r h
  unfold check_all_manifests at h
  obtain ⟨rd, h1, h⟩ := bind_ok h
  obtain ⟨rs, h2, h⟩ := bind_ok h
  obtain ⟨rc, h3, h⟩ := bind_ok h
  obtain ⟨rk, h4, h⟩ := bind_ok h
  replace h := pure_ok h
  obtain ⟨cs1, p1, m1⟩ := rd
  obtain ⟨cs2, p2, m2⟩ := rs
  obtain ⟨cs3, p3, m3⟩ := rc
  obtain ⟨cs4, p4, m4⟩ := rk
  obtain ⟨hm1, -, hp1, hq1⟩ := dep_char h1
  obtain ⟨hm2, -, hp2, hq2⟩ := svc_char h2
  obtain ⟨hm3, -, hp3, hq3⟩ := cm_char h3
  obtain ⟨hm4, -, hp4, hq4⟩ := sec_char h4
  subst hm1; subst hm2; subst hm3; subst hm4
  subst h
  have htot0 : (0 : Int) ≤ p1 + p2 + p3 + p4 := by omega
  have htot75 : p1 + p2 + p3 + p4 ≤ 75 := by omega
  refine ⟨by norm_num, htot0, htot75, ?_⟩
  have hn : (p1 + p2 + p3 + p4).toNat ≤ 75 := by omega
  norm_num
  rw [show Int.toNat 75 = 75 from rfl, floatPct_eq_floor hn, Int.ofNat_ediv]
  push_cast
  rw [Int.toNat_of_nonneg htot0]

/-- Witness for C8: the aggregator on four missing files reports
0/75 and 0 percent, matching `floor(100·0/75)`. -/
theorem claim_C8_witness :
    (RunReport.mk 0 75 0).max_total = 75 ∧ (0 : Int) ≤ (RunReport.mk 0 75 0).total_points ∧
      (RunReport.mk 0 75 0).total_points ≤ 75 ∧
      (RunReport.mk 0 75 0).progress_pct = 100 * (RunReport.mk 0 75 0).total_points / 75 :=
  claim_C8 .missing .missing .missing .missing ⟨0, 75, 0⟩ rfl
